import Mathlib

/-!
# Session registry and lifecycle of the WhatsApp worker

Shallow embedding of `trash/whatsapp-worker-backup-20250920_140347/main.go`.

* Go pointers to `Session` objects are indices into an append-only `heap`;
  the registry `sessions` is the Go map from session id to such a pointer.
  A goroutine or handler that holds a `*Session` holds the index, so it keeps
  writing to the same object after the registry entry was replaced or deleted.
* Results of calls into the wrapped protocol client, the credential store, the
  clock and the listener transports are explicit inputs (`...Env` records).
* Calls made to those collaborators are recorded, in program order, in a list
  of `Effect`s returned next to the new state.
* `connectSession` blocks in a `select`; it is split at that point into
  `connectSession` (up to the `select`) and `connectSessionSelect` (the case
  that fires).
* Mutexes are not part of the state: every function below is one handler run
  without interleaving.  The mutex calls of each handler are given separately
  as its lock trace (`lockTrace`).  `log.Printf` output is not modelled,
  except the line written when a listener write fails.
-/

namespace Worker

/-! ## Data model -/

/-- The `Session` struct.  `Client` is `none` for a nil `*whatsmeow.Client`.
`WebSockets` is the map from `fmt.Sprintf("%p", conn)` to `conn`; the key is
determined by the connection, so the map is kept as the list of its
connections (see `wsInsert`, `wsDelete`).  `Store`, `LastSync` and `mutex`
carry no data that any handler reads back. -/
structure Session where
  ID : String
  SessionKey : String
  Token : String
  Status : String
  QRCode : String
  PhoneNumber : String
  Client : Option Nat
  WebSockets : List Nat
  CreatedAt : Nat
  UpdatedAt : Nat
deriving DecidableEq, Repr

/-- The `WhatsAppWorker` struct: the registry map `sessions` (id to pointer),
the allocated `Session` objects, and the allocator of protocol clients. -/
structure WhatsAppWorker where
  sessions : List (String × Nat)
  heap : List Session
  nextClient : Nat
deriving DecidableEq, Repr

/-- Zero value read through a pointer that was never allocated. -/
def nilSession : Session :=
  { ID := "", SessionKey := "", Token := "", Status := "", QRCode := "",
    PhoneNumber := "", Client := none, WebSockets := [], CreatedAt := 0,
    UpdatedAt := 0 }

/-- Dereference of a `*Session`. -/
def deref (w : WhatsAppWorker) (p : Nat) : Session :=
  w.heap.getD p nilSession

/-- Field update through a `*Session`. -/
def update (w : WhatsAppWorker) (p : Nat) (f : Session → Session) : WhatsAppWorker :=
  { w with heap := w.heap.modify f p }

/-- Map read `m[k]`. -/
def mapGet (m : List (String × Nat)) (k : String) : Option Nat :=
  m.lookup k

/-- Map removal `delete(m, k)`. -/
def mapDelete (m : List (String × Nat)) (k : String) : List (String × Nat) :=
  m.filter (fun e => e.1 != k)

/-- Map write `m[k] = v`: the previous entry for `k`, if any, is replaced. -/
def mapSet (m : List (String × Nat)) (k : String) (v : Nat) : List (String × Nat) :=
  (k, v) :: mapDelete m k

/-- Listener registration `WebSockets[connID] = conn`. -/
def wsInsert (ws : List Nat) (conn : Nat) : List Nat :=
  if conn ∈ ws then ws else ws ++ [conn]

/-- Listener removal `delete(WebSockets, connID)`. -/
def wsDelete (ws : List Nat) (conn : Nat) : List Nat :=
  ws.filter (fun c => c != conn)

/-! ## Requests, responses, effects -/

/-- An HTTP request after `json.NewDecoder(r.Body).Decode`: `Body` is `none`
when decoding fails. -/
structure Request (α : Type) where
  Method : String
  Body : Option α

structure StartRequest where
  Session : String
  SessionKey : String
  Token : String
  WebhookUrl : String
deriving DecidableEq, Repr

structure StatusRequest where
  Session : String
  SessionKey : String
  Token : String
deriving DecidableEq, Repr

structure MessageRequest where
  Session : String
  SessionKey : String
  Token : String
  Phone : String
  Message : String
deriving DecidableEq, Repr

structure SessionData where
  Session : String
  Status : String
  QRCode : String
  PhoneNumber : String
  CreatedAt : Nat
  UpdatedAt : Nat
deriving DecidableEq, Repr

/-- A value stored in a response or event payload map. -/
inductive JSONValue where
  | str (s : String)
  | num (n : Nat)
deriving DecidableEq, Repr

/-- The payload handed to `notifyWebSockets`: its `"type"` and the members of
its `"data"` object. -/
structure WsMessage where
  type : String
  data : List (String × JSONValue)
deriving DecidableEq, Repr

/-- The `Data` member of a response. -/
inductive ResponseData where
  | session (d : SessionData)
  | fields (kv : List (String × JSONValue))
deriving DecidableEq, Repr

structure UzAPIResponse where
  Success : Bool
  Message : String
  Data : Option ResponseData
  Error : String
deriving DecidableEq, Repr

/-- What a handler wrote to its `http.ResponseWriter`. -/
structure HTTPResponse where
  statusCode : Nat
  body : UzAPIResponse
deriving DecidableEq, Repr

/-- A call into a collaborator. -/
inductive Effect where
  | mkdirAll (session : String)
  | storeUpgrade
  | newDevice
  | newClient (client : Nat)
  | addEventHandler (client : Nat) (session : String)
  | goConnectSession (session : String)
  | getQRChannel (client : Nat)
  | clientConnect (client : Nat)
  | clientDisconnect (client : Nat)
  | sendMessage (client : Nat) (jid : String) (text : String)
  | writeMessage (conn : Nat) (message : WsMessage)
  | logWriteError (conn : Nat)
  | connClose (conn : Nat)
deriving DecidableEq, Repr

/-- Result of one handler run. -/
structure Outcome where
  response : HTTPResponse
  worker : WhatsAppWorker
  effects : List Effect
deriving DecidableEq, Repr

def sendSuccess (message : String) (data : ResponseData) : HTTPResponse :=
  { statusCode := 200,
    body := { Success := true, Message := message, Data := some data, Error := "" } }

def sendError (message : String) (statusCode : Nat) : HTTPResponse :=
  { statusCode := statusCode,
    body := { Success := false, Message := message, Data := none, Error := message } }

/-! ## /start -/

/-- Inputs of `handleStart` from outside the worker. -/
structure StartEnv where
  /-- result of `session.Client.IsConnected()` on the existing entry -/
  isConnected : Bool
  /-- error of `session.Store.Upgrade`, if any -/
  upgradeErr : Option String
  /-- `session.Store.NewDevice()` returned nil -/
  deviceStoreNil : Bool
  /-- `whatsmeow.NewClient` returned nil -/
  clientNil : Bool
  /-- the two `time.Now()` reads of the struct literal -/
  createdAt : Nat
  updatedAt : Nat
deriving DecidableEq, Repr

def handleStart (w : WhatsAppWorker) (r : Request StartRequest) (env : StartEnv) : Outcome :=
  if r.Method != "POST" then
    ⟨sendError "Método não permitido" 405, w, []⟩
  else
    match r.Body with
    | none => ⟨sendError "JSON inválido" 400, w, []⟩
    | some req =>
      if req.Session == "" || req.SessionKey == "" || req.Token == "" then
        ⟨sendError "Campos obrigatórios: session, sessionKey, token" 400, w, []⟩
      else
        let existing : Option Session := (mapGet w.sessions req.Session).map (deref w)
        match existing.filter
            (fun s => s.Status == "connected" && s.Client.isSome && env.isConnected) with
        | some session =>
          ⟨sendSuccess "Sessão já conectada"
              (.session
                { Session := session.ID, Status := session.Status, QRCode := "",
                  PhoneNumber := session.PhoneNumber, CreatedAt := session.CreatedAt,
                  UpdatedAt := session.UpdatedAt }),
            w, []⟩
        | none =>
          let session : Session :=
            { ID := req.Session, SessionKey := req.SessionKey, Token := req.Token,
              Status := "connecting", QRCode := "", PhoneNumber := "", Client := none,
              WebSockets := [], CreatedAt := env.createdAt, UpdatedAt := env.updatedAt }
          match env.upgradeErr with
          | some err =>
            ⟨sendError ("Erro ao configurar store: " ++ err) 500, w,
              [.mkdirAll req.Session, .storeUpgrade]⟩
          | none =>
            if env.deviceStoreNil then
              ⟨sendError "Erro ao criar device store" 500, w,
                [.mkdirAll req.Session, .storeUpgrade, .newDevice]⟩
            else if env.clientNil then
              ⟨sendError "Erro ao criar cliente WhatsApp" 500, w,
                [.mkdirAll req.Session, .storeUpgrade, .newDevice]⟩
            else
              let client := w.nextClient
              let session := { session with Client := some client }
              let p := w.heap.length
              ⟨sendSuccess "Sessão iniciada"
                  (.session
                    { Session := session.ID, Status := session.Status, QRCode := "",
                      PhoneNumber := "", CreatedAt := session.CreatedAt,
                      UpdatedAt := session.UpdatedAt }),
                { sessions := mapSet w.sessions req.Session p,
                  heap := w.heap ++ [session],
                  nextClient := client + 1 },
                [.mkdirAll req.Session, .storeUpgrade, .newDevice, .newClient client,
                  .addEventHandler client req.Session, .goConnectSession req.Session]⟩

/-! ## /status -/

def handleStatus (w : WhatsAppWorker) (r : Request StatusRequest) : Outcome :=
  if r.Method != "POST" then
    ⟨sendError "Método não permitido" 405, w, []⟩
  else
    match r.Body with
    | none => ⟨sendError "JSON inválido" 400, w, []⟩
    | some req =>
      if req.Session == "" then
        ⟨sendError "Campo obrigatório: session" 400, w, []⟩
      else
        match mapGet w.sessions req.Session with
        | none => ⟨sendError "Sessão não encontrada" 404, w, []⟩
        | some p =>
          let session := deref w p
          ⟨sendSuccess "Status da sessão"
              (.session
                { Session := session.ID, Status := session.Status, QRCode := session.QRCode,
                  PhoneNumber := session.PhoneNumber, CreatedAt := session.CreatedAt,
                  UpdatedAt := session.UpdatedAt }),
            w, []⟩

/-! ## Event fan-out -/

/-- `notifyWebSockets`: `writeErr conn` tells whether `conn.WriteMessage`
returns an error.  Nothing in the worker is written. -/
def notifyWebSockets (w : WhatsAppWorker) (sessionID : String) (data : WsMessage)
    (writeErr : Nat → Bool) : WhatsAppWorker × List Effect :=
  match mapGet w.sessions sessionID with
  | none => (w, [])
  | some p =>
    (w, (deref w p).WebSockets.flatMap fun conn =>
      if writeErr conn then [Effect.writeMessage conn data, Effect.logWriteError conn]
      else [Effect.writeMessage conn data])

/-! ## The handshake goroutine -/

/-- Inputs of `connectSession` up to its `select`. -/
structure ConnectEnv where
  /-- `session.Client.Store.ID == nil` -/
  storeIDNil : Bool
  /-- error of `session.Client.Connect()`, if any -/
  connectErr : Option String
  /-- `session.Client.Store.ID.User`, read on the reconnect path -/
  user : String
  now : Nat
deriving DecidableEq, Repr

/-- Where `connectSession` stands after running up to its `select`:
`blocked = some p` when it waits there holding the session pointer `p`,
`none` when it has returned. -/
structure ConnectOutcome where
  worker : WhatsAppWorker
  effects : List Effect
  blocked : Option Nat
deriving DecidableEq, Repr

/-- `connectSession` from its start to the `select` (first connection) or to
its end (reconnect).  The result is `none` when `session.Client` is nil, where
`session.Client.Store` panics. -/
def connectSession (w : WhatsAppWorker) (sessionID : String) (env : ConnectEnv) :
    Option ConnectOutcome :=
  match mapGet w.sessions sessionID with
  | none => some ⟨w, [], none⟩
  | some p =>
    let session := deref w p
    if session.Status == "connected" then
      some ⟨w, [], none⟩
    else
      match session.Client with
      | none => none
      | some client =>
        if env.storeIDNil then
          match env.connectErr with
          | some _ =>
            some ⟨update w p fun s => { s with Status := "disconnected" },
              [.getQRChannel client, .clientConnect client], none⟩
          | none => some ⟨w, [.getQRChannel client, .clientConnect client], some p⟩
        else
          match env.connectErr with
          | some _ =>
            some ⟨update w p fun s => { s with Status := "disconnected" },
              [.clientConnect client], none⟩
          | none =>
            some ⟨update w p fun s =>
                { s with Status := "connected", PhoneNumber := env.user, UpdatedAt := env.now },
              [.clientConnect client], none⟩

/-- The `whatsmeow.QRChannelItem` read from `qrChan`. -/
structure QRChannelItem where
  Event : String
  Code : String
deriving DecidableEq, Repr

/-- The case of the `select` that fires. -/
inductive SelectCase where
  | qr (evt : QRChannelItem)
  | timeout
deriving DecidableEq, Repr

/-- Inputs of the `select` body. -/
structure SelectEnv where
  /-- `session.Client.Store.ID.User`, read in the success branch -/
  user : String
  now : Nat
  writeErr : Nat → Bool

/-- The `select` of `connectSession` and what follows it, for the goroutine
that holds session pointer `p`.  It handles one case and returns. -/
def connectSessionSelect (w : WhatsAppWorker) (sessionID : String) (p : Nat)
    (c : SelectCase) (env : SelectEnv) : WhatsAppWorker × List Effect :=
  match c with
  | .qr evt =>
    if evt.Event == "code" then
      let w1 := update w p fun s =>
        { s with QRCode := evt.Code, Status := "qr_required", UpdatedAt := env.now }
      notifyWebSockets w1 sessionID
        { type := "qr_code",
          data := [("session", .str sessionID), ("qrCode", .str evt.Code),
                   ("status", .str "qr_required")] }
        env.writeErr
    else if evt.Event == "success" then
      let w1 := update w p fun s =>
        { s with Status := "connected", PhoneNumber := env.user, UpdatedAt := env.now }
      notifyWebSockets w1 sessionID
        { type := "session_connected",
          data := [("session", .str sessionID), ("status", .str "connected"),
                   ("phoneNumber", .str (deref w1 p).PhoneNumber)] }
        env.writeErr
    else
      (w, [])
  | .timeout =>
    let w1 := update w p fun s => { s with Status := "disconnected" }
    ({ w1 with sessions := mapDelete w1.sessions sessionID }, [])

/-! ## Events of the protocol client -/

/-- The event passed to the handler installed by `AddEventHandler`.  The
handler has cases for `*events.Message`, `*events.Connected` and
`*events.Disconnected`; `PairSuccess` and `Other` stand for the event types
it has no case for. -/
inductive ClientEvent where
  | Message (ID Chat Sender : String) (Timestamp : Nat) (Conversation : String)
  | Connected
  | Disconnected
  | PairSuccess (ID : String)
  | Other
deriving DecidableEq, Repr

def handleIncomingMessage (w : WhatsAppWorker) (sessionID : String)
    (ID Chat Sender : String) (Timestamp : Nat) (Conversation : String)
    (writeErr : Nat → Bool) : WhatsAppWorker × List Effect :=
  let content := if Conversation == "" then "[Mensagem não suportada]" else Conversation
  notifyWebSockets w sessionID
    { type := "message_received",
      data := [("messageId", .str ID), ("chatId", .str Chat), ("content", .str content),
               ("sender", .str Sender), ("timestamp", .num Timestamp)] }
    writeErr

def eventHandler (w : WhatsAppWorker) (sessionID : String) (evt : ClientEvent)
    (writeErr : Nat → Bool) : WhatsAppWorker × List Effect :=
  match evt with
  | .Message ID Chat Sender Timestamp Conversation =>
    handleIncomingMessage w sessionID ID Chat Sender Timestamp Conversation writeErr
  | .Connected =>
    notifyWebSockets w sessionID
      { type := "session_connected",
        data := [("session", .str sessionID), ("status", .str "connected")] }
      writeErr
  | .Disconnected =>
    let w1 :=
      match mapGet w.sessions sessionID with
      | some p => update w p fun s => { s with Status := "disconnected" }
      | none => w
    notifyWebSockets w1 sessionID
      { type := "session_disconnected",
        data := [("session", .str sessionID), ("status", .str "disconnected")] }
      writeErr
  | .PairSuccess _ => (w, [])
  | .Other => (w, [])

/-! ## /disconnect -/

def handleDisconnect (w : WhatsAppWorker) (r : Request StatusRequest) : Outcome :=
  if r.Method != "POST" then
    ⟨sendError "Método não permitido" 405, w, []⟩
  else
    match r.Body with
    | none => ⟨sendError "JSON inválido" 400, w, []⟩
    | some req =>
      if req.Session == "" then
        ⟨sendError "Campo obrigatório: session" 400, w, []⟩
      else
        match mapGet w.sessions req.Session with
        | none => ⟨sendError "Sessão não encontrada" 404, w, []⟩
        | some p =>
          let session := deref w p
          let w1 := update w p fun s => { s with Status := "disconnected" }
          ⟨sendSuccess "Sessão desconectada"
              (.fields [("session", .str req.Session), ("status", .str "disconnected")]),
            { w1 with sessions := mapDelete w1.sessions req.Session },
            (match session.Client with
              | some client => [Effect.clientDisconnect client]
              | none => []) ++ session.WebSockets.map Effect.connClose⟩

/-! ## /send-text -/

/-- Inputs of `handleSendText` from outside the worker. -/
structure SendEnv where
  /-- result of `session.Client.IsConnected()` -/
  isConnected : Bool
  /-- result of `types.ParseJID(req.Phone)`, `none` on error -/
  jid : Option String
  /-- result of `session.Client.SendMessage`: the error, or `ID` and `Timestamp` -/
  sendResult : Except String (String × Nat)

def handleSendText (w : WhatsAppWorker) (r : Request MessageRequest) (env : SendEnv) : Outcome :=
  if r.Method != "POST" then
    ⟨sendError "Método não permitido" 405, w, []⟩
  else
    match r.Body with
    | none => ⟨sendError "JSON inválido" 400, w, []⟩
    | some req =>
      if req.Session == "" || req.Phone == "" || req.Message == "" then
        ⟨sendError "Campos obrigatórios: session, phone, message" 400, w, []⟩
      else
        match mapGet w.sessions req.Session with
        | none => ⟨sendError "Sessão não encontrada" 404, w, []⟩
        | some p =>
          let session := deref w p
          let notConnected :=
            session.Status != "connected" || session.Client.isNone || !env.isConnected
          match (if notConnected then none else session.Client) with
          | none => ⟨sendError "Sessão não conectada" 400, w, []⟩
          | some client =>
            match env.jid with
            | none => ⟨sendError "Número de telefone inválido" 400, w, []⟩
            | some jid =>
              match env.sendResult with
              | .error err =>
                ⟨sendError ("Erro ao enviar mensagem: " ++ err) 500, w,
                  [.sendMessage client jid req.Message]⟩
              | .ok (msgID, timestamp) =>
                ⟨sendSuccess "Mensagem enviada"
                    (.fields [("messageId", .str msgID), ("phone", .str req.Phone),
                              ("message", .str req.Message), ("timestamp", .num timestamp),
                              ("status", .str "sent")]),
                  w, [.sendMessage client jid req.Message]⟩

/-! ## /ws -/

/-- `handleWebSocket` up to its read loop.  `upgraded` is the connection
returned by `upgrader.Upgrade`, `none` on error.  The third component is
`some (conn, registered)` when the handler enters the read loop, `registered`
being the session pointer it holds when it registered the connection. -/
def handleWebSocket (w : WhatsAppWorker) (upgraded : Option Nat) (sessionID : String) :
    WhatsAppWorker × List Effect × Option (Nat × Option Nat) :=
  match upgraded with
  | none => (w, [], none)
  | some conn =>
    if sessionID == "" then
      (w, [.connClose conn], none)
    else
      match mapGet w.sessions sessionID with
      | some p =>
        (update w p fun s => { s with WebSockets := wsInsert s.WebSockets conn }, [],
          some (conn, some p))
      | none => (w, [], some (conn, none))

/-- The deferred calls of `handleWebSocket`, run when `conn.ReadMessage`
fails: unregister from the session the handler holds, then close. -/
def handleWebSocketClose (w : WhatsAppWorker) (conn : Nat) (registered : Option Nat) :
    WhatsAppWorker × List Effect :=
  match registered with
  | some p =>
    (update w p fun s => { s with WebSockets := wsDelete s.WebSockets conn }, [.connClose conn])
  | none => (w, [.connClose conn])

/-! ## /health and shutdown -/

/-- `handleHealth`; `timestamp` is the string `time.Now().Format(time.RFC3339)`. -/
def handleHealth (w : WhatsAppWorker) (timestamp : String) : Outcome :=
  ⟨sendSuccess "Worker saudável"
      (.fields [("status", .str "ok"), ("sessions", .num w.sessions.length),
                ("timestamp", .str timestamp)]),
    w, []⟩

def cleanup (w : WhatsAppWorker) : WhatsAppWorker × List Effect :=
  (w, w.sessions.flatMap fun e =>
    let session := deref w e.2
    (match session.Client with
      | some client => [Effect.clientDisconnect client]
      | none => []) ++ session.WebSockets.map Effect.connClose)

/-! ## Sample states, repeated create, reachable states -/

/-- The worker built by `main`: an empty registry. -/
def emptyWorker : WhatsAppWorker :=
  { sessions := [], heap := [], nextClient := 0 }

/-- A well-formed `/start` request for session `id`. -/
def startRequest (id : String) : Request StartRequest :=
  { Method := "POST",
    Body := some { Session := id, SessionKey := "key", Token := "token", WebhookUrl := "" } }

/-- A well-formed `/status` or `/disconnect` request for session `id`. -/
def statusRequest (id : String) : Request StatusRequest :=
  { Method := "POST", Body := some { Session := id, SessionKey := "key", Token := "token" } }

/-- Store and client setup succeed at time `t`; the client of an existing
entry reports `live`. -/
def startEnv (live : Bool) (t : Nat) : StartEnv :=
  { isConnected := live, upgradeErr := none, deviceStoreNil := false, clientNil := false,
    createdAt := t, updatedAt := t }

/-- The guard of `handleStart` that returns the existing session. -/
def alreadyConnected (w : WhatsAppWorker) (id : String) (live : Bool) : Prop :=
  ∃ p, mapGet w.sessions id = some p ∧ (deref w p).Status = "connected" ∧
    (deref w p).Client ≠ none ∧ live = true

/-- A registry holding one connected session `"s1"` with two listeners. -/
def connectedWorker : WhatsAppWorker :=
  { sessions := [("s1", 0)],
    heap :=
      [{ ID := "s1", SessionKey := "key", Token := "token", Status := "connected",
         QRCode := "", PhoneNumber := "5511999999999", Client := some 0,
         WebSockets := [3, 4], CreatedAt := 7, UpdatedAt := 9 }],
    nextClient := 1 }

/-- A registry holding one session `"s1"` waiting for its QR code to be
scanned. -/
def pairingWorker : WhatsAppWorker :=
  { sessions := [("s1", 0)],
    heap :=
      [{ ID := "s1", SessionKey := "key", Token := "token", Status := "qr_required",
         QRCode := "ABC123", PhoneNumber := "", Client := some 0,
         WebSockets := [3], CreatedAt := 7, UpdatedAt := 8 }],
    nextClient := 1 }

/-- The state after `create("s1")` on the empty worker at time 7. -/
def startedWorker : WhatsAppWorker :=
  (handleStart emptyWorker (startRequest "s1") (startEnv false 7)).worker

/-- The calls `notifyWebSockets` makes for the listener list `ws`. -/
def fanout (ws : List Nat) (data : WsMessage) (writeErr : Nat → Bool) : List Effect :=
  ws.flatMap fun conn =>
    if writeErr conn then [Effect.writeMessage conn data, Effect.logWriteError conn]
    else [Effect.writeMessage conn data]

/-- A payload as built by the event handler for a `Connected` event. -/
def sampleMessage : WsMessage :=
  { type := "session_connected",
    data := [("session", .str "s1"), ("status", .str "connected")] }

/-- Successive `/start` calls with the same request, one per element of the
list of inputs; the calls made are collected in order. -/
def startAll (w : WhatsAppWorker) (r : Request StartRequest) :
    List StartEnv → WhatsAppWorker × List Effect
  | [] => (w, [])
  | env :: envs =>
    ((startAll (handleStart w r env).worker r envs).1,
      (handleStart w r env).effects ++ (startAll (handleStart w r env).worker r envs).2)

/-- Recognises the creation of a protocol client. -/
def isNewClient : Effect → Bool
  | .newClient _ => true
  | _ => false

/-- One run of a handler, of a handshake stage or of the client's event
handler.  A pairing-code item carries a non-empty code.  The `select` stage
may run for any session pointer, which covers every goroutine actually
waiting there.  `handleStatus`, `handleSendText`, `handleHealth`,
`notifyWebSockets` and `cleanup` return the worker they were given, so they
add no state. -/
inductive Step : WhatsAppWorker → WhatsAppWorker → Prop where
  | start (w : WhatsAppWorker) (r : Request StartRequest) (env : StartEnv) :
      Step w (handleStart w r env).worker
  | connect (w : WhatsAppWorker) (id : String) (env : ConnectEnv) (o : ConnectOutcome) :
      connectSession w id env = some o → Step w o.worker
  | select (w : WhatsAppWorker) (id : String) (p : Nat) (c : SelectCase) (env : SelectEnv) :
      (∀ evt, c = .qr evt → evt.Event = "code" → evt.Code ≠ "") →
      Step w (connectSessionSelect w id p c env).1
  | event (w : WhatsAppWorker) (id : String) (evt : ClientEvent) (writeErr : Nat → Bool) :
      Step w (eventHandler w id evt writeErr).1
  | disconnect (w : WhatsAppWorker) (r : Request StatusRequest) :
      Step w (handleDisconnect w r).worker
  | subscribe (w : WhatsAppWorker) (upgraded : Option Nat) (id : String) :
      Step w (handleWebSocket w upgraded id).1
  | unsubscribe (w : WhatsAppWorker) (conn : Nat) (registered : Option Nat) :
      Step w (handleWebSocketClose w conn registered).1

/-- The states the worker can be in, starting from the empty registry. -/
inductive Reachable : WhatsAppWorker → Prop where
  | init : Reachable emptyWorker
  | step (w w2 : WhatsAppWorker) : Reachable w → Step w w2 → Reachable w2

/-- What holds of every allocated session object. -/
def Good (s : Session) : Prop :=
  (s.Status = "connecting" ∨ s.Status = "qr_required" ∨ s.Status = "connected" ∨
    s.Status = "disconnected") ∧
  (s.Status = "qr_required" → s.QRCode ≠ "") ∧
  (s.Status = "connecting" → s.QRCode = "") ∧
  s.WebSockets.Nodup

/-- Every allocated session is `Good` and every registry entry points to an
allocated session. -/
def Inv (w : WhatsAppWorker) : Prop :=
  (∀ s ∈ w.heap, Good s) ∧ ∀ id p, mapGet w.sessions id = some p → p < w.heap.length

/-- The state after the handshake of `"s1"` received the pairing code
`"ABC123"` at time 9. -/
def codeWorker : WhatsAppWorker :=
  (connectSessionSelect startedWorker "s1" 0 (.qr ⟨"code", "ABC123"⟩)
    { user := "", now := 9, writeErr := fun _ => false }).1

/-- The state after the client of `"s1"` then reported `Disconnected`. -/
def droppedWorker : WhatsAppWorker :=
  (eventHandler codeWorker "s1" .Disconnected (fun _ => false)).1

/-! ## Lock traces

Every `Lock`, `RLock`, `Unlock` and `RUnlock` call of a handler, in program
order, a deferred unlock standing where the handler returns.  Calls into the
protocol client and the listener transports are opaque: what they do on other
goroutines is not part of the caller's trace. -/

/-- The two kinds of mutex: `WhatsAppWorker.mutex` and the `mutex` of the
session object at a pointer. -/
inductive Mutex where
  | registry
  | session (p : Nat)
deriving DecidableEq, Repr

/-- A call on a `sync.RWMutex`. -/
inductive LockEvent where
  | lock (m : Mutex)
  | unlock (m : Mutex)
  | rlock (m : Mutex)
  | runlock (m : Mutex)
deriving DecidableEq, Repr

/-- Runs a trace from the list `held` of session locks held (read or write):
the session locks held at the end, or `none` when the registry lock is
acquired (read or write) while a session lock is held. -/
def heldAfter : List Nat → List LockEvent → Option (List Nat)
  | held, [] => some held
  | held, .lock .registry :: t => if held = [] then heldAfter held t else none
  | held, .rlock .registry :: t => if held = [] then heldAfter held t else none
  | held, .unlock .registry :: t => heldAfter held t
  | held, .runlock .registry :: t => heldAfter held t
  | held, .lock (.session p) :: t => heldAfter (p :: held) t
  | held, .rlock (.session p) :: t => heldAfter (p :: held) t
  | held, .unlock (.session p) :: t => heldAfter (held.erase p) t
  | held, .runlock (.session p) :: t => heldAfter (held.erase p) t

/-- The registry lock is never acquired while a session lock is held. -/
def registryBeforeSession (t : List LockEvent) : Bool :=
  (heldAfter [] t).isSome

/-- The `QRCodeRequest` struct. -/
structure QRCodeRequest where
  Session : String
  SessionKey : String
  Token : String
deriving DecidableEq, Repr

/-- Locks of `handleStart` (lines 194-213; the deferred unlock runs at
whichever return is taken). -/
def handleStartLocks (w : WhatsAppWorker) (r : Request StartRequest) : List LockEvent :=
  if r.Method != "POST" then []
  else
    match r.Body with
    | none => []
    | some req =>
      if req.Session == "" || req.SessionKey == "" || req.Token == "" then []
      else
        [.lock .registry] ++
        (match mapGet w.sessions req.Session with
          | some p => [.rlock (.session p), .runlock (.session p)]
          | none => []) ++
        [.unlock .registry]

/-- Locks of `notifyWebSockets` (lines 718-727). -/
def notifyWebSocketsLocks (w : WhatsAppWorker) (sessionID : String) : List LockEvent :=
  [.rlock .registry, .runlock .registry] ++
  (match mapGet w.sessions sessionID with
    | some p => [.rlock (.session p), .runlock (.session p)]
    | none => [])

/-- Locks of `connectSession` up to its `select` (lines 272-299, 352-365).
The status check at lines 281-287 is made under the session read lock (the
comment at line 280 says "sem lock"; the code takes it).  When
`session.Client` is nil the goroutine panics holding the read lock. -/
def connectSessionLocks (w : WhatsAppWorker) (sessionID : String) (env : ConnectEnv) :
    List LockEvent :=
  [.rlock .registry, .runlock .registry] ++
  (match mapGet w.sessions sessionID with
    | none => []
    | some p =>
      if (deref w p).Status == "connected" then
        [.rlock (.session p), .runlock (.session p)]
      else
        match (deref w p).Client with
        | none => [.rlock (.session p)]
        | some _ =>
          [.rlock (.session p), .runlock (.session p)] ++
          (if env.storeIDNil then
            match env.connectErr with
            | some _ => [.lock (.session p), .unlock (.session p)]
            | none => []
          else
            [.lock (.session p), .unlock (.session p)]))

/-- Locks of the `select` of `connectSession` (lines 302-349), for the
goroutine holding session pointer `p`, `w` being the worker at that time. -/
def connectSessionSelectLocks (w : WhatsAppWorker) (sessionID : String) (p : Nat)
    (c : SelectCase) : List LockEvent :=
  match c with
  | .qr evt =>
    if evt.Event == "code" then
      [.lock (.session p), .unlock (.session p)] ++ notifyWebSocketsLocks w sessionID
    else if evt.Event == "success" then
      [.lock (.session p), .unlock (.session p)] ++ notifyWebSocketsLocks w sessionID
    else []
  | .timeout =>
    [.lock (.session p), .unlock (.session p), .lock .registry, .unlock .registry]

/-- Locks of the whole handshake goroutine: `connectSession` on the worker `w`
and, when it waits in the `select`, the case `c` on the worker `later`. -/
def handshakeLocks (w later : WhatsAppWorker) (sessionID : String) (env : ConnectEnv)
    (c : SelectCase) : List LockEvent :=
  connectSessionLocks w sessionID env ++
  (match connectSession w sessionID env with
    | some o =>
      (match o.blocked with
        | some p => connectSessionSelectLocks later sessionID p c
        | none => [])
    | none => [])

/-- Locks of `handleStatus` (lines 387-422). -/
def handleStatusLocks (w : WhatsAppWorker) (r : Request StatusRequest) : List LockEvent :=
  if r.Method != "POST" then []
  else
    match r.Body with
    | none => []
    | some req =>
      if req.Session == "" then []
      else
        [.rlock .registry, .runlock .registry] ++
        (match mapGet w.sessions req.Session with
          | some p => [.rlock (.session p), .runlock (.session p)]
          | none => [])

/-- Locks of `handleQRCode` (lines 445-485) when its ticker fires `polls`
times before it answers. -/
def handleQRCodeLocks (w : WhatsAppWorker) (r : Request QRCodeRequest) (polls : Nat) :
    List LockEvent :=
  if r.Method != "POST" then []
  else
    match r.Body with
    | none => []
    | some req =>
      if req.Session == "" then []
      else
        [.rlock .registry, .runlock .registry] ++
        (match mapGet w.sessions req.Session with
          | some p =>
            (List.range polls).flatMap fun _ => [.rlock (.session p), .runlock (.session p)]
          | none => [])

/-- Locks of `handleDisconnect` (lines 506-527). -/
def handleDisconnectLocks (w : WhatsAppWorker) (r : Request StatusRequest) : List LockEvent :=
  if r.Method != "POST" then []
  else
    match r.Body with
    | none => []
    | some req =>
      if req.Session == "" then []
      else
        [.lock .registry] ++
        (match mapGet w.sessions req.Session with
          | some p => [.lock (.session p), .unlock (.session p)]
          | none => []) ++
        [.unlock .registry]

/-- Locks of `handleSendText` (lines 554-582): every path that takes the
session read lock releases it. -/
def handleSendTextLocks (w : WhatsAppWorker) (r : Request MessageRequest) : List LockEvent :=
  if r.Method != "POST" then []
  else
    match r.Body with
    | none => []
    | some req =>
      if req.Session == "" || req.Phone == "" || req.Message == "" then []
      else
        [.rlock .registry, .runlock .registry] ++
        (match mapGet w.sessions req.Session with
          | some p => [.rlock (.session p), .runlock (.session p)]
          | none => [])

/-- Locks of `handleHealth` (lines 601-611). -/
def handleHealthLocks (w : WhatsAppWorker) : List LockEvent :=
  [.rlock .registry] ++
  (w.sessions.flatMap fun e => [.rlock (.session e.2), .runlock (.session e.2)]) ++
  [.runlock .registry]

/-- Locks of `handleWebSocket` from registration (lines 636-644) to the
deferred removal (lines 646-650) that runs when the read loop ends. -/
def handleWebSocketLocks (w : WhatsAppWorker) (upgraded : Option Nat) (sessionID : String) :
    List LockEvent :=
  match upgraded with
  | none => []
  | some _ =>
    if sessionID == "" then []
    else
      [.rlock .registry, .runlock .registry] ++
      (match mapGet w.sessions sessionID with
        | some p =>
          [.lock (.session p), .unlock (.session p), .lock (.session p), .unlock (.session p)]
        | none => [])

/-- Locks of the client event handler (lines 662-695). -/
def eventHandlerLocks (w : WhatsAppWorker) (sessionID : String) (evt : ClientEvent) :
    List LockEvent :=
  match evt with
  | .Message _ _ _ _ _ => notifyWebSocketsLocks w sessionID
  | .Connected => notifyWebSocketsLocks w sessionID
  | .Disconnected =>
    [.rlock .registry] ++
    (match mapGet w.sessions sessionID with
      | some p => [.lock (.session p), .unlock (.session p)]
      | none => []) ++
    [.runlock .registry] ++ notifyWebSocketsLocks w sessionID
  | .PairSuccess _ => []
  | .Other => []

/-- Locks of `cleanup` (lines 763-776). -/
def cleanupLocks (w : WhatsAppWorker) : List LockEvent :=
  [.lock .registry] ++
  (w.sessions.flatMap fun e => [.lock (.session e.2), .unlock (.session e.2)]) ++
  [.unlock .registry]

/-- The operations of the worker with their inputs. -/
inductive Operation where
  | create (r : Request StartRequest)
  | handshake (later : WhatsAppWorker) (sessionID : String) (env : ConnectEnv) (c : SelectCase)
  | getStatus (r : Request StatusRequest)
  | waitForPairingCode (r : Request QRCodeRequest) (polls : Nat)
  | disconnect (r : Request StatusRequest)
  | send (r : Request MessageRequest)
  | health
  | subscribe (upgraded : Option Nat) (sessionID : String)
  | publish (sessionID : String)
  | clientEvent (sessionID : String) (evt : ClientEvent)
  | shutdown

/-- The lock trace of an operation started on the worker `w`. -/
def lockTrace (w : WhatsAppWorker) : Operation → List LockEvent
  | .create r => handleStartLocks w r
  | .handshake later sessionID env c => handshakeLocks w later sessionID env c
  | .getStatus r => handleStatusLocks w r
  | .waitForPairingCode r polls => handleQRCodeLocks w r polls
  | .disconnect r => handleDisconnectLocks w r
  | .send r => handleSendTextLocks w r
  | .health => handleHealthLocks w
  | .subscribe upgraded sessionID => handleWebSocketLocks w upgraded sessionID
  | .publish sessionID => notifyWebSocketsLocks w sessionID
  | .clientEvent sessionID evt => eventHandlerLocks w sessionID evt
  | .shutdown => cleanupLocks w

/-! # Theorems -/

/-! ## Registry and heap lemmas -/

theorem mapGet_mapDelete_self (m : List (String × Nat)) (k : String) :
    mapGet (mapDelete m k) k = none := by
  induction m with
  | nil => rfl
  | cons e m ih =>
    obtain ⟨a, b⟩ := e
    unfold mapGet mapDelete at ih ⊢
    by_cases h : a = k
    · rw [List.filter_cons_of_neg (by simp [h])]
      exact ih
    · rw [List.filter_cons_of_pos (by simp [h]), List.lookup_cons]
      have hk : (k == a) = false := by simpa using fun h2 => h h2.symm
      rw [hk]
      exact ih

theorem mapGet_mapDelete_ne (m : List (String × Nat)) (k k2 : String) (hne : k2 ≠ k) :
    mapGet (mapDelete m k) k2 = mapGet m k2 := by
  induction m with
  | nil => rfl
  | cons e m ih =>
    obtain ⟨a, b⟩ := e
    unfold mapGet mapDelete at ih ⊢
    by_cases h : a = k
    · have hk : (k2 == a) = false := by simpa [h] using hne
      rw [List.filter_cons_of_neg (by simp [h]), List.lookup_cons, hk]
      exact ih
    · rw [List.filter_cons_of_pos (by simp [h]), List.lookup_cons, List.lookup_cons]
      cases hk : (k2 == a)
      · exact ih
      · rfl

theorem mapGet_mapSet_self (m : List (String × Nat)) (k : String) (v : Nat) :
    mapGet (mapSet m k v) k = some v := by
  simp [mapSet, mapGet, List.lookup_cons]

theorem mapGet_mapSet_ne (m : List (String × Nat)) (k k2 : String) (v : Nat) (hne : k2 ≠ k) :
    mapGet (mapSet m k v) k2 = mapGet m k2 := by
  have hk : (k2 == k) = false := by simpa using hne
  have := mapGet_mapDelete_ne m k k2 hne
  simpa [mapSet, mapGet, List.lookup_cons, hk] using this

theorem deref_update_self (w : WhatsAppWorker) (p : Nat) (f : Session → Session)
    (hp : p < w.heap.length) : deref (update w p f) p = f (deref w p) := by
  simp [deref, update, List.getD_eq_getElem?_getD, List.getElem?_modify, hp]

theorem deref_update_ne (w : WhatsAppWorker) (p q : Nat) (f : Session → Session)
    (hne : q ≠ p) : deref (update w p f) q = deref w q := by
  simp [deref, update, List.getD_eq_getElem?_getD, List.getElem?_modify, Ne.symm hne]

/-! ## Create, status, send, disconnect, timeout -/

theorem handleStart_new (w : WhatsAppWorker) (req : StartRequest) (env : StartEnv)
    (hS : req.Session ≠ "") (hK : req.SessionKey ≠ "") (hT : req.Token ≠ "")
    (hnew : ¬ alreadyConnected w req.Session env.isConnected)
    (hup : env.upgradeErr = none) (hdev : env.deviceStoreNil = false)
    (hcl : env.clientNil = false) :
    handleStart w ⟨"POST", some req⟩ env =
      ⟨sendSuccess "Sessão iniciada"
          (.session
            { Session := req.Session, Status := "connecting", QRCode := "",
              PhoneNumber := "", CreatedAt := env.createdAt, UpdatedAt := env.updatedAt }),
        { sessions := mapSet w.sessions req.Session w.heap.length,
          heap := w.heap ++
            [{ ID := req.Session, SessionKey := req.SessionKey, Token := req.Token,
               Status := "connecting", QRCode := "", PhoneNumber := "",
               Client := some w.nextClient, WebSockets := [],
               CreatedAt := env.createdAt, UpdatedAt := env.updatedAt }],
          nextClient := w.nextClient + 1 },
        [.mkdirAll req.Session, .storeUpgrade, .newDevice, .newClient w.nextClient,
          .addEventHandler w.nextClient req.Session, .goConnectSession req.Session]⟩ := by
  have hfil : ((mapGet w.sessions req.Session).map (deref w)).filter
      (fun s => s.Status == "connected" && s.Client.isSome && env.isConnected) = none := by
    cases hg : mapGet w.sessions req.Session with
    | none => rfl
    | some p =>
      simp only [Option.map_some', Option.filter]
      split
      · rename_i hc
        exfalso
        apply hnew
        refine ⟨p, hg, ?_⟩
        simp only [Bool.and_eq_true, beq_iff_eq] at hc
        refine ⟨hc.1.1, ?_, hc.2⟩
        intro hn
        simp [hn] at hc
      · rfl
  unfold handleStart
  simp only [hfil, hup, hdev, hcl]
  simp [hS, hK, hT]

/-- C2: when `create(id)` builds a new session (fields non-empty, no connected
live entry, store and client setup succeed), the registry maps `id` to a
session with status `connecting` when `handleStart` returns, and a status
request issued on that state returns `connecting`, not 404. -/
theorem C2_create_then_status_connecting (w : WhatsAppWorker) (req : StartRequest)
    (env : StartEnv) (sreq : StatusRequest)
    (hS : req.Session ≠ "") (hK : req.SessionKey ≠ "") (hT : req.Token ≠ "")
    (hnew : ¬ alreadyConnected w req.Session env.isConnected)
    (hup : env.upgradeErr = none) (hdev : env.deviceStoreNil = false)
    (hcl : env.clientNil = false) (hreq : sreq.Session = req.Session) :
    (∃ p, mapGet (handleStart w ⟨"POST", some req⟩ env).worker.sessions req.Session = some p ∧
      (deref (handleStart w ⟨"POST", some req⟩ env).worker p).Status = "connecting" ∧
      (deref (handleStart w ⟨"POST", some req⟩ env).worker p).ID = req.Session) ∧
    (handleStart w ⟨"POST", some req⟩ env).response.statusCode = 200 ∧
    (handleStatus (handleStart w ⟨"POST", some req⟩ env).worker ⟨"POST", some sreq⟩).response =
      sendSuccess "Status da sessão"
        (.session
          { Session := req.Session, Status := "connecting", QRCode := "", PhoneNumber := "",
            CreatedAt := env.createdAt, UpdatedAt := env.updatedAt }) := by
  rw [handleStart_new w req env hS hK hT hnew hup hdev hcl]
  have hd : ∀ (m : List (String × Nat)) (n : Nat) (x : Session),
      deref { sessions := m, heap := w.heap ++ [x], nextClient := n } w.heap.length = x := by
    intro m n x
    simp [deref, List.getD_eq_getElem?_getD]
  refine ⟨⟨w.heap.length, mapGet_mapSet_self _ _ _, ?_, ?_⟩, rfl, ?_⟩
  · rw [hd]
  · rw [hd]
  · unfold handleStatus
    simp only [hreq, mapGet_mapSet_self, hd]
    simp [hS]

theorem C2_create_then_status_connecting_witness :
    (∃ p, mapGet (handleStart emptyWorker (startRequest "s1") (startEnv false 7)).worker.sessions
        "s1" = some p ∧
      (deref (handleStart emptyWorker (startRequest "s1") (startEnv false 7)).worker p).Status =
        "connecting" ∧
      (deref (handleStart emptyWorker (startRequest "s1") (startEnv false 7)).worker p).ID =
        "s1") ∧
    (handleStart emptyWorker (startRequest "s1") (startEnv false 7)).response.statusCode = 200 ∧
    (handleStatus (handleStart emptyWorker (startRequest "s1") (startEnv false 7)).worker
        (statusRequest "s1")).response =
      sendSuccess "Status da sessão"
        (.session
          { Session := "s1", Status := "connecting", QRCode := "", PhoneNumber := "",
            CreatedAt := 7, UpdatedAt := 7 }) :=
  C2_create_then_status_connecting emptyWorker
    { Session := "s1", SessionKey := "key", Token := "token", WebhookUrl := "" }
    (startEnv false 7) { Session := "s1", SessionKey := "key", Token := "token" }
    (by decide) (by decide) (by decide)
    (by rintro ⟨p, hp, -⟩; simp [emptyWorker, mapGet] at hp)
    rfl rfl rfl rfl

/-- C3: `create(id)` on an entry that is `connected` with a live client returns
that session's id, status, phone number and timestamps, leaves the worker
(registry and every session object) as it was, and makes no call at all: no
client is created and no handshake goroutine is started. -/
theorem C3_create_on_connected_is_idempotent (w : WhatsAppWorker) (req : StartRequest)
    (env : StartEnv) (p : Nat)
    (hS : req.Session ≠ "") (hK : req.SessionKey ≠ "") (hT : req.Token ≠ "")
    (hget : mapGet w.sessions req.Session = some p)
    (hst : (deref w p).Status = "connected") (hcl : (deref w p).Client ≠ none)
    (hlive : env.isConnected = true) :
    handleStart w ⟨"POST", some req⟩ env =
      ⟨sendSuccess "Sessão já conectada"
          (.session
            { Session := (deref w p).ID, Status := "connected", QRCode := "",
              PhoneNumber := (deref w p).PhoneNumber, CreatedAt := (deref w p).CreatedAt,
              UpdatedAt := (deref w p).UpdatedAt }),
        w, []⟩ := by
  have hsome : (deref w p).Client.isSome = true := by
    cases hc : (deref w p).Client with
    | none => exact absurd hc hcl
    | some c => rfl
  unfold handleStart
  simp [hS, hK, hT, hget, hst, hsome, hlive, Option.filter]

theorem C3_create_on_connected_is_idempotent_witness :
    handleStart connectedWorker (startRequest "s1") (startEnv true 20) =
      ⟨sendSuccess "Sessão já conectada"
          (.session
            { Session := "s1", Status := "connected", QRCode := "",
              PhoneNumber := "5511999999999", CreatedAt := 7, UpdatedAt := 9 }),
        connectedWorker, []⟩ :=
  C3_create_on_connected_is_idempotent connectedWorker
    { Session := "s1", SessionKey := "key", Token := "token", WebhookUrl := "" }
    (startEnv true 20) 0 (by decide) (by decide) (by decide) rfl rfl (by decide) rfl

/-- C5: a send request with non-empty session, phone and message, for a
session that exists but is not `connected`, or has no client, or whose client
is not connected, is answered 400 "Sessão não conectada"; `SendMessage` is not
called (no call is made at all) and the worker is unchanged. -/
theorem C5_send_rejected_when_not_connected (w : WhatsAppWorker) (req : MessageRequest)
    (env : SendEnv) (p : Nat)
    (hS : req.Session ≠ "") (hP : req.Phone ≠ "") (hM : req.Message ≠ "")
    (hget : mapGet w.sessions req.Session = some p)
    (hnot : (deref w p).Status ≠ "connected" ∨ (deref w p).Client = none ∨
      env.isConnected = false) :
    handleSendText w ⟨"POST", some req⟩ env = ⟨sendError "Sessão não conectada" 400, w, []⟩ := by
  have hcond : ((deref w p).Status != "connected" || (deref w p).Client.isNone ||
      !env.isConnected) = true := by
    rcases hnot with h | h | h
    · simp [h]
    · simp [h]
    · simp [h]
  unfold handleSendText
  simp only [hget, hcond]
  simp [hS, hP, hM]

theorem C5_send_rejected_when_not_connected_witness :
    handleSendText pairingWorker
        ⟨"POST", some { Session := "s1", SessionKey := "key", Token := "token",
                        Phone := "5511888888888@s.whatsapp.net", Message := "oi" }⟩
        { isConnected := true, jid := some "5511888888888@s.whatsapp.net",
          sendResult := .ok ("MSG1", 30) } =
      ⟨sendError "Sessão não conectada" 400, pairingWorker, []⟩ :=
  C5_send_rejected_when_not_connected pairingWorker _ _ 0
    (by decide) (by decide) (by decide) rfl (Or.inl (by decide))

theorem handleStatus_absent (w : WhatsAppWorker) (req : StatusRequest)
    (hS : req.Session ≠ "") (hget : mapGet w.sessions req.Session = none) :
    handleStatus w ⟨"POST", some req⟩ = ⟨sendError "Sessão não encontrada" 404, w, []⟩ := by
  unfold handleStatus
  simp [hS, hget]

theorem handleDisconnect_present (w : WhatsAppWorker) (req : StatusRequest) (p : Nat)
    (hS : req.Session ≠ "") (hget : mapGet w.sessions req.Session = some p) :
    handleDisconnect w ⟨"POST", some req⟩ =
      ⟨sendSuccess "Sessão desconectada"
          (.fields [("session", .str req.Session), ("status", .str "disconnected")]),
        { update w p (fun s => { s with Status := "disconnected" }) with
          sessions := mapDelete w.sessions req.Session },
        (match (deref w p).Client with
          | some client => [Effect.clientDisconnect client]
          | none => []) ++ (deref w p).WebSockets.map Effect.connClose⟩ := by
  unfold handleDisconnect
  simp [hS, hget, update]

/-- C6: `disconnect(s)` on a registered session calls `Disconnect` on its
client and closes each of its listener connections (and makes no other call),
marks the session object `disconnected`, removes `s` from the registry and
leaves every other id's mapping and every other session object unchanged, so
that a later status request for `s` is answered 404; on an id absent from the
registry it answers 404 and changes nothing. -/
theorem C6_disconnect_tears_down_and_removes (w : WhatsAppWorker) (req : StatusRequest)
    (hS : req.Session ≠ "") :
    (∀ p, mapGet w.sessions req.Session = some p →
      (handleDisconnect w ⟨"POST", some req⟩).effects =
        (match (deref w p).Client with
          | some client => [Effect.clientDisconnect client]
          | none => []) ++ (deref w p).WebSockets.map Effect.connClose ∧
      (handleDisconnect w ⟨"POST", some req⟩).response.statusCode = 200 ∧
      (p < w.heap.length →
        deref (handleDisconnect w ⟨"POST", some req⟩).worker p =
          { deref w p with Status := "disconnected" }) ∧
      mapGet (handleDisconnect w ⟨"POST", some req⟩).worker.sessions req.Session = none ∧
      (∀ id, id ≠ req.Session →
        mapGet (handleDisconnect w ⟨"POST", some req⟩).worker.sessions id =
          mapGet w.sessions id) ∧
      (∀ q, q ≠ p → deref (handleDisconnect w ⟨"POST", some req⟩).worker q = deref w q) ∧
      (handleStatus (handleDisconnect w ⟨"POST", some req⟩).worker ⟨"POST", some req⟩).response =
        sendError "Sessão não encontrada" 404) ∧
    (mapGet w.sessions req.Session = none →
      handleDisconnect w ⟨"POST", some req⟩ = ⟨sendError "Sessão não encontrada" 404, w, []⟩) := by
  constructor
  · intro p hget
    rw [handleDisconnect_present w req p hS hget]
    refine ⟨rfl, rfl, ?_, ?_, ?_, ?_, ?_⟩
    · intro hp
      exact deref_update_self w p _ hp
    · exact mapGet_mapDelete_self _ _
    · intro id hid
      exact mapGet_mapDelete_ne _ _ _ hid
    · intro q hq
      exact deref_update_ne w p q _ hq
    · rw [handleStatus_absent _ req hS (mapGet_mapDelete_self _ _)]
  · intro hget
    unfold handleDisconnect
    simp [hS, hget]

theorem C6_disconnect_tears_down_and_removes_witness :
    ((handleDisconnect connectedWorker (statusRequest "s1")).effects =
        [Effect.clientDisconnect 0, Effect.connClose 3, Effect.connClose 4] ∧
      mapGet (handleDisconnect connectedWorker (statusRequest "s1")).worker.sessions "s1" =
        none ∧
      (handleStatus (handleDisconnect connectedWorker (statusRequest "s1")).worker
          (statusRequest "s1")).response = sendError "Sessão não encontrada" 404) ∧
    handleDisconnect emptyWorker (statusRequest "s1") =
      ⟨sendError "Sessão não encontrada" 404, emptyWorker, []⟩ :=
  have h1 := (C6_disconnect_tears_down_and_removes connectedWorker
    { Session := "s1", SessionKey := "key", Token := "token" } (by decide)).1 0 rfl
  have h2 := (C6_disconnect_tears_down_and_removes emptyWorker
    { Session := "s1", SessionKey := "key", Token := "token" } (by decide)).2 rfl
  ⟨⟨h1.1, h1.2.2.2.1, h1.2.2.2.2.2.2⟩, h2⟩

/-- C4 (as the code behaves): a first-pairing handshake for `s` whose `Connect`
succeeds reaches the `select` holding the session pointer; when no item at all
arrives on the QR channel before the deadline, so that the 30-second case of
the `select` fires, whatever the state `w1` of the worker is by then, the
session object is marked `disconnected` and `s` is deleted from the registry,
so a later status request for `s` is answered 404. -/
theorem C4_handshake_timeout_removes_session (w w1 : WhatsAppWorker) (s : String) (p client : Nat)
    (env : ConnectEnv) (senv : SelectEnv) (req : StatusRequest)
    (hget : mapGet w.sessions s = some p) (hst : (deref w p).Status ≠ "connected")
    (hcl : (deref w p).Client = some client)
    (hfirst : env.storeIDNil = true) (hok : env.connectErr = none)
    (hp : p < w1.heap.length) (hS : req.Session ≠ "") (hreq : req.Session = s) :
    connectSession w s env =
      some ⟨w, [.getQRChannel client, .clientConnect client], some p⟩ ∧
    (deref (connectSessionSelect w1 s p .timeout senv).1 p).Status = "disconnected" ∧
    mapGet (connectSessionSelect w1 s p .timeout senv).1.sessions s = none ∧
    (handleStatus (connectSessionSelect w1 s p .timeout senv).1 ⟨"POST", some req⟩).response =
      sendError "Sessão não encontrada" 404 := by
  refine ⟨?_, ?_, ?_, ?_⟩
  · unfold connectSession
    simp [hget, hst, hcl, hfirst, hok]
  · show (deref { update w1 p _ with sessions := _ } p).Status = "disconnected"
    have := deref_update_self w1 p (fun s => { s with Status := "disconnected" }) hp
    simp only [deref, update] at this ⊢
    rw [this]
  · exact mapGet_mapDelete_self _ _
  · subst hreq
    rw [handleStatus_absent _ req hS (mapGet_mapDelete_self _ _)]

theorem C4_handshake_timeout_removes_session_witness :
    connectSession startedWorker "s1"
        { storeIDNil := true, connectErr := none, user := "", now := 8 } =
      some ⟨startedWorker, [.getQRChannel 0, .clientConnect 0], some 0⟩ ∧
    (deref (connectSessionSelect startedWorker "s1" 0 .timeout
      { user := "", now := 38, writeErr := fun _ => false }).1 0).Status = "disconnected" ∧
    mapGet (connectSessionSelect startedWorker "s1" 0 .timeout
      { user := "", now := 38, writeErr := fun _ => false }).1.sessions "s1" = none ∧
    (handleStatus (connectSessionSelect startedWorker "s1" 0 .timeout
      { user := "", now := 38, writeErr := fun _ => false }).1 (statusRequest "s1")).response =
      sendError "Sessão não encontrada" 404 :=
  C4_handshake_timeout_removes_session startedWorker startedWorker "s1" 0 0
    { storeIDNil := true, connectErr := none, user := "", now := 8 }
    { user := "", now := 38, writeErr := fun _ => false }
    { Session := "s1", SessionKey := "key", Token := "token" }
    rfl (by decide) rfl rfl rfl (by decide) (by decide) rfl

/-- C4 as stated fails: the handshake of `"s1"` waits in its `select` and the
QR channel delivers an item that is neither a pairing code nor a pairing
success (here `"err-client-outdated"`) before the deadline.  No pairing event
has arrived, yet the `select` has taken its one case: nothing is written, the
session stays `connecting` and registered, and the status request is answered
200 with status `connecting`. -/
theorem C4_other_item_leaves_session_registered :
    connectSession startedWorker "s1"
        { storeIDNil := true, connectErr := none, user := "", now := 8 } =
      some ⟨startedWorker, [.getQRChannel 0, .clientConnect 0], some 0⟩ ∧
    (connectSessionSelect startedWorker "s1" 0 (.qr ⟨"err-client-outdated", ""⟩)
      { user := "", now := 9, writeErr := fun _ => false }).1 = startedWorker ∧
    (connectSessionSelect startedWorker "s1" 0 (.qr ⟨"err-client-outdated", ""⟩)
      { user := "", now := 9, writeErr := fun _ => false }).2 = [] ∧
    mapGet (connectSessionSelect startedWorker "s1" 0 (.qr ⟨"err-client-outdated", ""⟩)
      { user := "", now := 9, writeErr := fun _ => false }).1.sessions "s1" = some 0 ∧
    (deref (connectSessionSelect startedWorker "s1" 0 (.qr ⟨"err-client-outdated", ""⟩)
      { user := "", now := 9, writeErr := fun _ => false }).1 0).Status = "connecting" ∧
    (handleStatus (connectSessionSelect startedWorker "s1" 0 (.qr ⟨"err-client-outdated", ""⟩)
      { user := "", now := 9, writeErr := fun _ => false }).1 (statusRequest "s1")).response =
      sendSuccess "Status da sessão"
        (.session
          { Session := "s1", Status := "connecting", QRCode := "", PhoneNumber := "",
            CreatedAt := 7, UpdatedAt := 7 }) := by
  decide

/-! ## Fan-out -/

theorem count_fanout (ws : List Nat) (data : WsMessage) (writeErr : Nat → Bool) (c : Nat) :
    (fanout ws data writeErr).count (Effect.writeMessage c data) = ws.count c := by
  induction ws with
  | nil => rfl
  | cons a ws ih =>
    unfold fanout at ih ⊢
    rw [List.flatMap_cons, List.count_append, ih, List.count_cons]
    by_cases hac : a = c
    · subst hac
      cases writeErr a <;> simp [List.count_cons, Nat.add_comm]
    · have hne : ¬ (Effect.writeMessage a data = Effect.writeMessage c data) := by
        intro h
        injection h with h1 _
        exact hac h1
      cases writeErr a <;> simp [List.count_cons, hac, hne]

theorem mem_fanout (ws : List Nat) (data : WsMessage) (writeErr : Nat → Bool) (c : Nat)
    (msg : WsMessage) (h : Effect.writeMessage c msg ∈ fanout ws data writeErr) :
    msg = data ∧ c ∈ ws := by
  unfold fanout at h
  rw [List.mem_flatMap] at h
  obtain ⟨a, ha, hmem⟩ := h
  cases hw : writeErr a
  · simp only [hw, Bool.false_eq_true, if_false, List.mem_singleton] at hmem
    injection hmem with h1 h2
    exact ⟨h2, h1 ▸ ha⟩
  · simp only [hw, if_true, List.mem_cons, List.mem_singleton] at hmem
    rcases hmem with hmem | hmem | hmem
    · injection hmem with h1 h2
      exact ⟨h2, h1 ▸ ha⟩
    · cases hmem
    · cases hmem

theorem notifyWebSockets_present (w : WhatsAppWorker) (id : String) (data : WsMessage)
    (writeErr : Nat → Bool) (p : Nat) (hget : mapGet w.sessions id = some p) :
    notifyWebSockets w id data writeErr = (w, fanout (deref w p).WebSockets data writeErr) := by
  unfold notifyWebSockets fanout
  simp [hget]

theorem notifyWebSockets_worker (w : WhatsAppWorker) (id : String) (data : WsMessage)
    (writeErr : Nat → Bool) : (notifyWebSockets w id data writeErr).1 = w := by
  unfold notifyWebSockets
  cases mapGet w.sessions id <;> rfl

/-- C10: `publish` writes nothing to the worker, so the listener set of the
session is as it was whichever writes fail; for a registered session it calls
`WriteMessage` with the same payload as many times on a connection as the
connection occurs in the listener map (once for each listener, the keys of
the map being distinct), and on no other connection and with no other payload;
for an id absent from the registry it makes no call, and a subscription
request for an absent id leaves the worker unchanged and writes to no
listener. -/
theorem C10_publish_delivers_once_and_keeps_listeners (w : WhatsAppWorker) (id : String)
    (data : WsMessage) (writeErr : Nat → Bool) :
    (notifyWebSockets w id data writeErr).1 = w ∧
    (∀ p, mapGet w.sessions id = some p →
      (∀ conn, (notifyWebSockets w id data writeErr).2.count (Effect.writeMessage conn data) =
        (deref w p).WebSockets.count conn) ∧
      ((deref w p).WebSockets.Nodup → ∀ conn ∈ (deref w p).WebSockets,
        (notifyWebSockets w id data writeErr).2.count (Effect.writeMessage conn data) = 1) ∧
      (∀ conn msg, Effect.writeMessage conn msg ∈ (notifyWebSockets w id data writeErr).2 →
        msg = data ∧ conn ∈ (deref w p).WebSockets)) ∧
    (mapGet w.sessions id = none →
      notifyWebSockets w id data writeErr = (w, []) ∧
      ∀ upgraded, (handleWebSocket w upgraded id).1 = w ∧
        ∀ conn msg, Effect.writeMessage conn msg ∉ (handleWebSocket w upgraded id).2.1) := by
  refine ⟨notifyWebSockets_worker w id data writeErr, ?_, ?_⟩
  · intro p hget
    rw [notifyWebSockets_present w id data writeErr p hget]
    refine ⟨fun conn => count_fanout _ _ _ conn, ?_, fun conn msg h => mem_fanout _ _ _ _ _ h⟩
    intro hnd conn hconn
    show (fanout _ _ _).count _ = 1
    rw [count_fanout]
    exact List.count_eq_one_of_mem hnd hconn
  · intro hget
    constructor
    · unfold notifyWebSockets
      simp [hget]
    · intro upgraded
      unfold handleWebSocket
      cases upgraded with
      | none => simp
      | some conn =>
        by_cases hid : id = ""
        · simp [hid]
        · simp [hid, hget]

theorem C10_publish_delivers_once_and_keeps_listeners_witness :
    (notifyWebSockets connectedWorker "s1" sampleMessage (fun c => c == 3)).1 =
      connectedWorker ∧
    (notifyWebSockets connectedWorker "s1" sampleMessage (fun c => c == 3)).2.count
      (Effect.writeMessage 3 sampleMessage) = 1 ∧
    (notifyWebSockets connectedWorker "s1" sampleMessage (fun c => c == 3)).2.count
      (Effect.writeMessage 4 sampleMessage) = 1 ∧
    notifyWebSockets emptyWorker "s1" sampleMessage (fun c => c == 3) = (emptyWorker, []) ∧
    (handleWebSocket emptyWorker (some 5) "s1").1 = emptyWorker :=
  have h := C10_publish_delivers_once_and_keeps_listeners connectedWorker "s1" sampleMessage
    (fun c => c == 3)
  have h0 := C10_publish_delivers_once_and_keeps_listeners emptyWorker "s1" sampleMessage
    (fun c => c == 3)
  ⟨h.1, (h.2.1 0 rfl).2.1 (by decide) 3 (by decide), (h.2.1 0 rfl).2.1 (by decide) 4 (by decide),
    (h0.2.2 rfl).1, ((h0.2.2 rfl).2 (some 5)).1⟩

/-! ## The pairing scenario -/

theorem deref_alloc (m : List (String × Nat)) (h : List Session) (x : Session) (k : Nat) :
    deref { sessions := m, heap := h ++ [x], nextClient := k } h.length = x := by
  simp [deref, List.getD_eq_getElem?_getD]

theorem update_sessions (w : WhatsAppWorker) (p : Nat) (f : Session → Session) :
    (update w p f).sessions = w.sessions := rfl

/-- C1 (what the code does): after `create(s)` on a registry without `s`, a
first-pairing handshake whose `Connect` succeeds waits in its `select`; on the
pairing-code item `c` the status request answers `qr_required` with code `c`.
The goroutine then returns, so when the client afterwards reports the pairing
success (a `PairSuccess` event followed by `Connected`) nothing writes the
session: the status request still answers `qr_required` with code `c` and an
empty phone number. -/
theorem C1_pairing_success_after_code_not_recorded (w : WhatsAppWorker) (req : StartRequest)
    (env : StartEnv) (cenv : ConnectEnv) (senv : SelectEnv) (c ident : String)
    (writeErr : Nat → Bool) (sreq : StatusRequest)
    (hS : req.Session ≠ "") (hK : req.SessionKey ≠ "") (hT : req.Token ≠ "")
    (habsent : mapGet w.sessions req.Session = none)
    (hup : env.upgradeErr = none) (hdev : env.deviceStoreNil = false)
    (hcl : env.clientNil = false)
    (hfirst : cenv.storeIDNil = true) (hok : cenv.connectErr = none)
    (hreq : sreq.Session = req.Session) :
    connectSession (handleStart w ⟨"POST", some req⟩ env).worker req.Session cenv =
      some ⟨(handleStart w ⟨"POST", some req⟩ env).worker,
        [.getQRChannel w.nextClient, .clientConnect w.nextClient], some w.heap.length⟩ ∧
    (handleStatus
        (connectSessionSelect (handleStart w ⟨"POST", some req⟩ env).worker req.Session
          w.heap.length (.qr ⟨"code", c⟩) senv).1
        ⟨"POST", some sreq⟩).response =
      sendSuccess "Status da sessão"
        (.session
          { Session := req.Session, Status := "qr_required", QRCode := c, PhoneNumber := "",
            CreatedAt := env.createdAt, UpdatedAt := senv.now }) ∧
    (handleStatus
        (eventHandler
          (eventHandler
            (connectSessionSelect (handleStart w ⟨"POST", some req⟩ env).worker req.Session
              w.heap.length (.qr ⟨"code", c⟩) senv).1
            req.Session (.PairSuccess ident) writeErr).1
          req.Session .Connected writeErr).1
        ⟨"POST", some sreq⟩).response =
      sendSuccess "Status da sessão"
        (.session
          { Session := req.Session, Status := "qr_required", QRCode := c, PhoneNumber := "",
            CreatedAt := env.createdAt, UpdatedAt := senv.now }) := by
  have hnew : ¬ alreadyConnected w req.Session env.isConnected := by
    rintro ⟨p, hp, -⟩
    rw [habsent] at hp
    cases hp
  rw [handleStart_new w req env hS hK hT hnew hup hdev hcl]
  have hstatus : ∀ w2 : WhatsAppWorker,
      mapGet w2.sessions req.Session = some w.heap.length →
      deref w2 w.heap.length =
        { ID := req.Session, SessionKey := req.SessionKey, Token := req.Token,
          Status := "qr_required", QRCode := c, PhoneNumber := "",
          Client := some w.nextClient, WebSockets := [],
          CreatedAt := env.createdAt, UpdatedAt := senv.now } →
      (handleStatus w2 ⟨"POST", some sreq⟩).response =
        sendSuccess "Status da sessão"
          (.session
            { Session := req.Session, Status := "qr_required", QRCode := c, PhoneNumber := "",
              CreatedAt := env.createdAt, UpdatedAt := senv.now }) := by
    intro w2 hget hd
    unfold handleStatus
    simp only [hreq, hget, hd]
    simp [hS]
  have hsel : (connectSessionSelect
      { sessions := mapSet w.sessions req.Session w.heap.length,
        heap := w.heap ++
          [{ ID := req.Session, SessionKey := req.SessionKey, Token := req.Token,
             Status := "connecting", QRCode := "", PhoneNumber := "",
             Client := some w.nextClient, WebSockets := [],
             CreatedAt := env.createdAt, UpdatedAt := env.updatedAt }],
        nextClient := w.nextClient + 1 }
      req.Session w.heap.length (.qr ⟨"code", c⟩) senv).1 =
      update
        { sessions := mapSet w.sessions req.Session w.heap.length,
          heap := w.heap ++
            [{ ID := req.Session, SessionKey := req.SessionKey, Token := req.Token,
               Status := "connecting", QRCode := "", PhoneNumber := "",
               Client := some w.nextClient, WebSockets := [],
               CreatedAt := env.createdAt, UpdatedAt := env.updatedAt }],
          nextClient := w.nextClient + 1 }
        w.heap.length
        (fun s => { s with QRCode := c, Status := "qr_required", UpdatedAt := senv.now }) := by
    unfold connectSessionSelect
    simp only [beq_self_eq_true, if_true]
    exact notifyWebSockets_worker _ _ _ _
  refine ⟨?_, ?_, ?_⟩
  · unfold connectSession
    simp only [mapGet_mapSet_self, deref_alloc]
    simp [hfirst, hok]
  · apply hstatus
    · rw [hsel, update_sessions]
      exact mapGet_mapSet_self _ _ _
    · rw [hsel, deref_update_self _ _ _ (by simp), deref_alloc]
  · apply hstatus
    · show mapGet (eventHandler (eventHandler _ _ _ _).1 _ _ _).1.sessions _ = _
      simp only [eventHandler, notifyWebSockets_worker]
      rw [hsel, update_sessions]
      exact mapGet_mapSet_self _ _ _
    · simp only [eventHandler, notifyWebSockets_worker]
      rw [hsel, deref_update_self _ _ _ (by simp), deref_alloc]

theorem C1_pairing_success_after_code_not_recorded_witness :
    connectSession (handleStart emptyWorker (startRequest "s1") (startEnv false 7)).worker "s1"
        { storeIDNil := true, connectErr := none, user := "", now := 8 } =
      some ⟨(handleStart emptyWorker (startRequest "s1") (startEnv false 7)).worker,
        [.getQRChannel 0, .clientConnect 0], some 0⟩ ∧
    (handleStatus
        (connectSessionSelect (handleStart emptyWorker (startRequest "s1") (startEnv false 7)).worker
          "s1" 0 (.qr ⟨"code", "ABC123"⟩)
          { user := "5511999999999", now := 9, writeErr := fun _ => false }).1
        (statusRequest "s1")).response =
      sendSuccess "Status da sessão"
        (.session
          { Session := "s1", Status := "qr_required", QRCode := "ABC123", PhoneNumber := "",
            CreatedAt := 7, UpdatedAt := 9 }) ∧
    (handleStatus
        (eventHandler
          (eventHandler
            (connectSessionSelect
              (handleStart emptyWorker (startRequest "s1") (startEnv false 7)).worker
              "s1" 0 (.qr ⟨"code", "ABC123"⟩)
              { user := "5511999999999", now := 9, writeErr := fun _ => false }).1
            "s1" (.PairSuccess "5511999999999") (fun _ => false)).1
          "s1" .Connected (fun _ => false)).1
        (statusRequest "s1")).response =
      sendSuccess "Status da sessão"
        (.session
          { Session := "s1", Status := "qr_required", QRCode := "ABC123", PhoneNumber := "",
            CreatedAt := 7, UpdatedAt := 9 }) :=
  C1_pairing_success_after_code_not_recorded emptyWorker
    { Session := "s1", SessionKey := "key", Token := "token", WebhookUrl := "" }
    (startEnv false 7) { storeIDNil := true, connectErr := none, user := "", now := 8 }
    { user := "5511999999999", now := 9, writeErr := fun _ => false } "ABC123" "5511999999999"
    (fun _ => false) { Session := "s1", SessionKey := "key", Token := "token" }
    (by decide) (by decide) (by decide) rfl rfl rfl rfl rfl rfl rfl

/-! ## Repeated create -/

theorem startAll_counts (req : StartRequest) (hS : req.Session ≠ "")
    (hK : req.SessionKey ≠ "") (hT : req.Token ≠ "") (envs : List StartEnv) :
    ∀ w : WhatsAppWorker,
      (∀ p, mapGet w.sessions req.Session = some p → (deref w p).Status ≠ "connected") →
      (∀ env ∈ envs, env.upgradeErr = none ∧ env.deviceStoreNil = false ∧
        env.clientNil = false) →
      (startAll w ⟨"POST", some req⟩ envs).2.count (Effect.goConnectSession req.Session) =
        envs.length ∧
      (startAll w ⟨"POST", some req⟩ envs).2.countP isNewClient = envs.length ∧
      (startAll w ⟨"POST", some req⟩ envs).1.heap.length = w.heap.length + envs.length ∧
      (startAll w ⟨"POST", some req⟩ envs).1.nextClient = w.nextClient + envs.length ∧
      (envs ≠ [] → mapGet (startAll w ⟨"POST", some req⟩ envs).1.sessions req.Session =
        some (w.heap.length + envs.length - 1)) := by
  induction envs with
  | nil =>
    intro w _ _
    simp [startAll]
  | cons env envs ih =>
    intro w hnc hok
    have henv := hok env (List.mem_cons_self _ _)
    have hnew : ¬ alreadyConnected w req.Session env.isConnected := by
      rintro ⟨p, hp, hst, -⟩
      exact hnc p hp hst
    have hstart := handleStart_new w req env hS hK hT hnew henv.1 henv.2.1 henv.2.2
    have hnc2 : ∀ p, mapGet (handleStart w ⟨"POST", some req⟩ env).worker.sessions req.Session =
        some p → (deref (handleStart w ⟨"POST", some req⟩ env).worker p).Status ≠ "connected" := by
      intro p hp
      rw [hstart] at hp ⊢
      simp only [mapGet_mapSet_self, Option.some.injEq] at hp
      subst hp
      rw [deref_alloc]
      show "connecting" ≠ "connected"
      decide
    have hrec := ih (handleStart w ⟨"POST", some req⟩ env).worker hnc2
      (fun e he => hok e (List.mem_cons_of_mem _ he))
    obtain ⟨h1, h2, h3, h4, h5⟩ := hrec
    have hlen : (handleStart w ⟨"POST", some req⟩ env).worker.heap.length = w.heap.length + 1 := by
      rw [hstart]
      simp
    have hget : mapGet (handleStart w ⟨"POST", some req⟩ env).worker.sessions req.Session =
        some w.heap.length := by
      rw [hstart]
      exact mapGet_mapSet_self _ _ _
    refine ⟨?_, ?_, ?_, ?_, ?_⟩
    · simp only [startAll, List.count_append, h1]
      rw [hstart]
      simp [List.count_cons]
      omega
    · simp only [startAll, List.countP_append, h2]
      rw [hstart]
      simp [List.countP_cons, isNewClient]
      omega
    · simp only [startAll, h3, hlen, List.length_cons]
      omega
    · simp only [startAll, h4, List.length_cons]
      rw [hstart]
      show w.nextClient + 1 + envs.length = w.nextClient + (envs.length + 1)
      omega
    · intro _
      simp only [startAll, List.length_cons]
      cases envs with
      | nil => simpa [startAll] using hget
      | cons e es =>
        rw [h5 (List.cons_ne_nil _ _), hlen]
        simp only [List.length_cons]
        congr 1
        omega

/-- C7 (as the code behaves): when the registry entry for `id` is `connecting`
or `qr_required`, each further `create(id)` whose store and client setup
succeed creates one more protocol client and starts one more handshake
goroutine: `k` such calls in a row start `k` goroutines, create `k` clients
and allocate `k` session objects, and the registry entry for `id` points to
the object allocated last. -/
theorem C7_each_create_starts_a_handshake (w : WhatsAppWorker) (req : StartRequest)
    (envs : List StartEnv) (p : Nat)
    (hS : req.Session ≠ "") (hK : req.SessionKey ≠ "") (hT : req.Token ≠ "")
    (hget : mapGet w.sessions req.Session = some p)
    (hst : (deref w p).Status = "connecting" ∨ (deref w p).Status = "qr_required")
    (hok : ∀ env ∈ envs, env.upgradeErr = none ∧ env.deviceStoreNil = false ∧
      env.clientNil = false) :
    (startAll w ⟨"POST", some req⟩ envs).2.count (Effect.goConnectSession req.Session) =
      envs.length ∧
    (startAll w ⟨"POST", some req⟩ envs).2.countP isNewClient = envs.length ∧
    (startAll w ⟨"POST", some req⟩ envs).1.heap.length = w.heap.length + envs.length ∧
    (startAll w ⟨"POST", some req⟩ envs).1.nextClient = w.nextClient + envs.length ∧
    (envs ≠ [] → mapGet (startAll w ⟨"POST", some req⟩ envs).1.sessions req.Session =
      some (w.heap.length + envs.length - 1)) := by
  apply startAll_counts req hS hK hT envs w _ hok
  intro q hq
  rw [hget] at hq
  cases hq
  rcases hst with h | h <;> rw [h] <;> decide

theorem C7_each_create_starts_a_handshake_witness :
    (startAll startedWorker (startRequest "s1") [startEnv false 8, startEnv false 9]).2.count
      (Effect.goConnectSession "s1") = 2 ∧
    (startAll startedWorker (startRequest "s1") [startEnv false 8, startEnv false 9]).2.countP
      isNewClient = 2 ∧
    (startAll startedWorker (startRequest "s1") [startEnv false 8, startEnv false 9]).1.heap.length =
      startedWorker.heap.length + 2 ∧
    (startAll startedWorker (startRequest "s1") [startEnv false 8, startEnv false 9]).1.nextClient =
      startedWorker.nextClient + 2 ∧
    mapGet (startAll startedWorker (startRequest "s1")
      [startEnv false 8, startEnv false 9]).1.sessions "s1" = some 2 :=
  have h := C7_each_create_starts_a_handshake startedWorker
    { Session := "s1", SessionKey := "key", Token := "token", WebhookUrl := "" }
    [startEnv false 8, startEnv false 9] 0 (by decide) (by decide) (by decide) rfl
    (Or.inl (by decide)) (by decide)
  ⟨h.1, h.2.1, h.2.2.1, h.2.2.2.1, h.2.2.2.2 (by decide)⟩

/-- C7 as stated fails: the entry for `"s1"` is `connecting`, and a second
`create("s1")` creates client 1, starts a second handshake goroutine and
replaces the registry entry by a second session object. -/
theorem C7_second_create_starts_second_handshake :
    mapGet startedWorker.sessions "s1" = some 0 ∧
    (deref startedWorker 0).Status = "connecting" ∧
    (handleStart startedWorker (startRequest "s1") (startEnv false 8)).effects =
      [.mkdirAll "s1", .storeUpgrade, .newDevice, .newClient 1, .addEventHandler 1 "s1",
        .goConnectSession "s1"] ∧
    mapGet (handleStart startedWorker (startRequest "s1") (startEnv false 8)).worker.sessions
      "s1" = some 1 ∧
    (handleStart startedWorker (startRequest "s1") (startEnv false 8)).worker.heap.length = 2 := by
  decide

/-! ## Invariant of the reachable states -/

theorem wsInsert_nodup (ws : List Nat) (conn : Nat) (h : ws.Nodup) :
    (wsInsert ws conn).Nodup := by
  unfold wsInsert
  split
  · exact h
  · rename_i hmem
    rw [List.nodup_append]
    refine ⟨h, List.nodup_singleton _, ?_⟩
    intro a ha hb
    rw [List.mem_singleton] at hb
    exact hmem (hb ▸ ha)

theorem wsDelete_nodup (ws : List Nat) (conn : Nat) (h : ws.Nodup) :
    (wsDelete ws conn).Nodup :=
  List.Nodup.filter _ h

theorem good_disconnected (s : Session) (h : Good s) :
    Good { s with Status := "disconnected" } := by
  refine ⟨Or.inr (Or.inr (Or.inr rfl)), ?_, ?_, h.2.2.2⟩
  · intro hq
    exact absurd hq (by simp)
  · intro hq
    exact absurd hq (by simp)

theorem good_connected (s : Session) (user : String) (now : Nat) (h : Good s) :
    Good { s with Status := "connected", PhoneNumber := user, UpdatedAt := now } := by
  refine ⟨Or.inr (Or.inr (Or.inl rfl)), ?_, ?_, h.2.2.2⟩
  · intro hq
    exact absurd hq (by simp)
  · intro hq
    exact absurd hq (by simp)

theorem good_qr (s : Session) (code : String) (now : Nat) (hc : code ≠ "") (h : Good s) :
    Good { s with QRCode := code, Status := "qr_required", UpdatedAt := now } := by
  refine ⟨Or.inr (Or.inl rfl), fun _ => hc, ?_, h.2.2.2⟩
  intro hq
  exact absurd hq (by simp)

theorem inv_update (w : WhatsAppWorker) (p : Nat) (f : Session → Session)
    (hf : ∀ s, Good s → Good (f s)) (h : Inv w) : Inv (update w p f) := by
  constructor
  · intro s hs
    rw [List.mem_iff_getElem?] at hs
    obtain ⟨q, hq⟩ := hs
    simp only [update, List.getElem?_modify] at hq
    cases ht : w.heap[q]? with
    | none => simp [ht] at hq
    | some t =>
      have htm : t ∈ w.heap := List.mem_iff_getElem?.mpr ⟨q, ht⟩
      simp only [ht, Option.map_eq_map, Option.map_some', Option.some.injEq] at hq
      subst hq
      split
      · exact hf t (h.1 t htm)
      · exact h.1 t htm
  · intro id q hq
    simp only [update, List.length_modify]
    exact h.2 id q hq

theorem inv_delete (w : WhatsAppWorker) (k : String) (h : Inv w) :
    Inv { w with sessions := mapDelete w.sessions k } := by
  refine ⟨h.1, ?_⟩
  intro id q hq
  by_cases hid : id = k
  · subst hid
    simp only [mapGet_mapDelete_self] at hq
    cases hq
  · simp only [mapGet_mapDelete_ne _ _ _ hid] at hq
    exact h.2 id q hq

theorem inv_alloc (w : WhatsAppWorker) (k : String) (x : Session) (n : Nat) (hx : Good x)
    (h : Inv w) :
    Inv { sessions := mapSet w.sessions k w.heap.length, heap := w.heap ++ [x],
          nextClient := n } := by
  constructor
  · intro s hs
    simp only [List.mem_append, List.mem_singleton] at hs
    rcases hs with hs | hs
    · exact h.1 s hs
    · exact hs ▸ hx
  · intro id q hq
    simp only [List.length_append, List.length_cons, List.length_nil]
    by_cases hid : id = k
    · subst hid
      simp only [mapGet_mapSet_self, Option.some.injEq] at hq
      omega
    · simp only [mapGet_mapSet_ne _ _ _ _ hid] at hq
      have := h.2 id q hq
      omega

theorem handleStart_worker (w : WhatsAppWorker) (r : Request StartRequest) (env : StartEnv) :
    (handleStart w r env).worker = w ∨
    ∃ req : StartRequest, (handleStart w r env).worker =
      { sessions := mapSet w.sessions req.Session w.heap.length,
        heap := w.heap ++
          [{ ID := req.Session, SessionKey := req.SessionKey, Token := req.Token,
             Status := "connecting", QRCode := "", PhoneNumber := "",
             Client := some w.nextClient, WebSockets := [],
             CreatedAt := env.createdAt, UpdatedAt := env.updatedAt }],
        nextClient := w.nextClient + 1 } := by
  unfold handleStart
  by_cases hm : (r.Method != "POST") = true
  · rw [if_pos hm]
    exact Or.inl rfl
  · rw [if_neg hm]
    cases r.Body with
    | none => exact Or.inl rfl
    | some req =>
      dsimp only
      by_cases hf : (req.Session == "" || req.SessionKey == "" || req.Token == "") = true
      · rw [if_pos hf]
        exact Or.inl rfl
      · rw [if_neg hf]
        cases Option.filter
            (fun s => s.Status == "connected" && s.Client.isSome && env.isConnected)
            (Option.map (deref w) (mapGet w.sessions req.Session)) with
        | some session => exact Or.inl rfl
        | none =>
          dsimp only
          cases env.upgradeErr with
          | some err => exact Or.inl rfl
          | none =>
            dsimp only
            by_cases hd : env.deviceStoreNil = true
            · rw [if_pos hd]
              exact Or.inl rfl
            · rw [if_neg hd]
              by_cases hc : env.clientNil = true
              · rw [if_pos hc]
                exact Or.inl rfl
              · rw [if_neg hc]
                exact Or.inr ⟨req, rfl⟩

theorem inv_handleStart (w : WhatsAppWorker) (r : Request StartRequest) (env : StartEnv)
    (h : Inv w) : Inv (handleStart w r env).worker := by
  rcases handleStart_worker w r env with hw | ⟨req, hw⟩
  · rw [hw]
    exact h
  · rw [hw]
    apply inv_alloc _ _ _ _ _ h
    refine ⟨Or.inl rfl, ?_, fun _ => rfl, List.nodup_nil⟩
    intro hq
    exact absurd hq (by simp)

theorem connectSession_worker (w : WhatsAppWorker) (id : String) (env : ConnectEnv)
    (o : ConnectOutcome) (ho : connectSession w id env = some o) :
    o.worker = w ∨
    (∃ p, o.worker = update w p fun s => { s with Status := "disconnected" }) ∨
    ∃ p, o.worker = update w p fun s =>
      { s with Status := "connected", PhoneNumber := env.user, UpdatedAt := env.now } := by
  unfold connectSession at ho
  cases hg : mapGet w.sessions id with
  | none =>
    simp only [hg, Option.some.injEq] at ho
    subst ho
    exact Or.inl rfl
  | some p =>
    simp only [hg] at ho
    by_cases hst : ((deref w p).Status == "connected") = true
    · rw [if_pos hst] at ho
      simp only [Option.some.injEq] at ho
      subst ho
      exact Or.inl rfl
    · rw [if_neg hst] at ho
      cases hc : (deref w p).Client with
      | none => simp [hc] at ho
      | some client =>
        simp only [hc] at ho
        by_cases hf : env.storeIDNil = true
        · rw [if_pos hf] at ho
          cases he : env.connectErr with
          | some err =>
            simp only [he, Option.some.injEq] at ho
            subst ho
            exact Or.inr (Or.inl ⟨p, rfl⟩)
          | none =>
            simp only [he, Option.some.injEq] at ho
            subst ho
            exact Or.inl rfl
        · rw [if_neg hf] at ho
          cases he : env.connectErr with
          | some err =>
            simp only [he, Option.some.injEq] at ho
            subst ho
            exact Or.inr (Or.inl ⟨p, rfl⟩)
          | none =>
            simp only [he, Option.some.injEq] at ho
            subst ho
            exact Or.inr (Or.inr ⟨p, rfl⟩)

theorem inv_connectSession (w : WhatsAppWorker) (id : String) (env : ConnectEnv)
    (o : ConnectOutcome) (ho : connectSession w id env = some o) (h : Inv w) :
    Inv o.worker := by
  rcases connectSession_worker w id env o ho with hw | ⟨p, hw⟩ | ⟨p, hw⟩
  · rw [hw]
    exact h
  · rw [hw]
    exact inv_update _ _ _ good_disconnected h
  · rw [hw]
    exact inv_update _ _ _ (fun s hs => good_connected s _ _ hs) h

theorem inv_connectSessionSelect (w : WhatsAppWorker) (id : String) (p : Nat) (c : SelectCase)
    (env : SelectEnv) (hc : ∀ evt, c = .qr evt → evt.Event = "code" → evt.Code ≠ "")
    (h : Inv w) : Inv (connectSessionSelect w id p c env).1 := by
  unfold connectSessionSelect
  split
  · rename_i evt
    split
    · rename_i hev
      rw [notifyWebSockets_worker]
      have hcode := hc evt rfl (by simpa using hev)
      exact inv_update _ _ _ (fun s hs => good_qr s _ _ hcode hs) h
    · split
      · rw [notifyWebSockets_worker]
        exact inv_update _ _ _ (fun s hs => good_connected s _ _ hs) h
      · exact h
  · exact inv_delete _ _ (inv_update _ _ _ good_disconnected h)

theorem inv_eventHandler (w : WhatsAppWorker) (id : String) (evt : ClientEvent)
    (writeErr : Nat → Bool) (h : Inv w) : Inv (eventHandler w id evt writeErr).1 := by
  unfold eventHandler
  cases evt with
  | Message a b c d e =>
    simp only [handleIncomingMessage]
    rw [notifyWebSockets_worker]
    exact h
  | Connected =>
    simp only
    rw [notifyWebSockets_worker]
    exact h
  | Disconnected =>
    simp only
    rw [notifyWebSockets_worker]
    split
    · exact inv_update _ _ _ good_disconnected h
    · exact h
  | PairSuccess a => exact h
  | Other => exact h

theorem handleDisconnect_worker (w : WhatsAppWorker) (r : Request StatusRequest) :
    (handleDisconnect w r).worker = w ∨
    ∃ p k, (handleDisconnect w r).worker =
      { update w p (fun s => { s with Status := "disconnected" }) with
        sessions := mapDelete w.sessions k } := by
  unfold handleDisconnect
  by_cases hm : (r.Method != "POST") = true
  · rw [if_pos hm]
    exact Or.inl rfl
  · rw [if_neg hm]
    cases r.Body with
    | none => exact Or.inl rfl
    | some req =>
      dsimp only
      by_cases hf : (req.Session == "") = true
      · rw [if_pos hf]
        exact Or.inl rfl
      · rw [if_neg hf]
        cases mapGet w.sessions req.Session with
        | none => exact Or.inl rfl
        | some p => exact Or.inr ⟨p, req.Session, rfl⟩

theorem inv_handleDisconnect (w : WhatsAppWorker) (r : Request StatusRequest) (h : Inv w) :
    Inv (handleDisconnect w r).worker := by
  rcases handleDisconnect_worker w r with hw | ⟨p, k, hw⟩
  · rw [hw]
    exact h
  · rw [hw]
    exact inv_delete _ _ (inv_update _ _ _ good_disconnected h)

theorem inv_handleWebSocket (w : WhatsAppWorker) (upgraded : Option Nat) (id : String)
    (h : Inv w) : Inv (handleWebSocket w upgraded id).1 := by
  unfold handleWebSocket
  cases upgraded with
  | none => exact h
  | some conn =>
    dsimp only
    by_cases hid : (id == "") = true
    · rw [if_pos hid]
      exact h
    · rw [if_neg hid]
      cases mapGet w.sessions id with
      | none => exact h
      | some p =>
        apply inv_update _ _ _ _ h
        intro s hs
        exact ⟨hs.1, hs.2.1, hs.2.2.1, wsInsert_nodup _ _ hs.2.2.2⟩

theorem inv_handleWebSocketClose (w : WhatsAppWorker) (conn : Nat) (registered : Option Nat)
    (h : Inv w) : Inv (handleWebSocketClose w conn registered).1 := by
  unfold handleWebSocketClose
  split
  · apply inv_update _ _ _ _ h
    intro s hs
    exact ⟨hs.1, hs.2.1, hs.2.2.1, wsDelete_nodup _ _ hs.2.2.2⟩
  · exact h

theorem inv_step (w w2 : WhatsAppWorker) (hs : Step w w2) (h : Inv w) : Inv w2 := by
  cases hs with
  | start r env => exact inv_handleStart w r env h
  | connect id env o ho => exact inv_connectSession w id env o ho h
  | select id p c env hc => exact inv_connectSessionSelect w id p c env hc h
  | event id evt writeErr => exact inv_eventHandler w id evt writeErr h
  | disconnect r => exact inv_handleDisconnect w r h
  | subscribe upgraded id => exact inv_handleWebSocket w upgraded id h
  | unsubscribe conn registered => exact inv_handleWebSocketClose w conn registered h

theorem inv_reachable (w : WhatsAppWorker) (h : Reachable w) : Inv w := by
  induction h with
  | init =>
    constructor
    · intro s hs
      cases hs
    · intro id p hp
      cases hp
  | step w w2 _ hs ih => exact inv_step w w2 hs ih

/-! ## Pairing code and status -/

theorem deref_mem (w : WhatsAppWorker) (p : Nat) (hp : p < w.heap.length) :
    deref w p ∈ w.heap := by
  rw [List.mem_iff_getElem?]
  refine ⟨p, ?_⟩
  simp [deref, List.getD_eq_getElem?_getD, List.getElem?_eq_getElem hp]

theorem reachable_codeWorker : Reachable codeWorker := by
  refine Reachable.step startedWorker _ ?_
    (Step.select startedWorker "s1" 0 (.qr ⟨"code", "ABC123"⟩)
      { user := "", now := 9, writeErr := fun _ => false } ?_)
  · refine Reachable.step startedWorker _ ?_
      (Step.connect startedWorker "s1"
        { storeIDNil := true, connectErr := none, user := "", now := 8 }
        ⟨startedWorker, [.getQRChannel 0, .clientConnect 0], some 0⟩ rfl)
    exact Reachable.step emptyWorker _ Reachable.init
      (Step.start emptyWorker (startRequest "s1") (startEnv false 7))
  · intro evt hevt _
    cases hevt
    decide

theorem deref_update_cases (w : WhatsAppWorker) (p q : Nat) (f : Session → Session) :
    deref (update w q f) p = deref w p ∨ deref (update w q f) p = f (deref w p) := by
  by_cases hqp : p = q
  · subst hqp
    by_cases hp : p < w.heap.length
    · exact Or.inr (deref_update_self w p f hp)
    · left
      have hnone : w.heap[p]? = none := List.getElem?_eq_none (Nat.le_of_not_lt hp)
      simp [deref, update, List.getD_eq_getElem?_getD, List.getElem?_modify, hnone]
  · exact Or.inl (deref_update_ne w q p f hqp)

theorem code_kept_update (w : WhatsAppWorker) (p q : Nat) (f : Session → Session)
    (hf : ∀ s : Session, s.QRCode ≠ "" → (f s).QRCode ≠ "")
    (h : (deref w p).QRCode ≠ "") : (deref (update w q f) p).QRCode ≠ "" := by
  rcases deref_update_cases w p q f with he | he
  · rw [he]
    exact h
  · rw [he]
    exact hf _ h

theorem code_kept_alloc (w : WhatsAppWorker) (m : List (String × Nat)) (x : Session)
    (n p : Nat) (h : (deref w p).QRCode ≠ "") :
    (deref { sessions := m, heap := w.heap ++ [x], nextClient := n } p).QRCode ≠ "" := by
  by_cases hp : p < w.heap.length
  · have he : deref { sessions := m, heap := w.heap ++ [x], nextClient := n } p = deref w p := by
      simp [deref, List.getD_eq_getElem?_getD, List.getElem?_append_left hp]
    rw [he]
    exact h
  · exfalso
    apply h
    have hnone : w.heap[p]? = none := List.getElem?_eq_none (Nat.le_of_not_lt hp)
    simp [deref, List.getD_eq_getElem?_getD, hnone, nilSession]

theorem code_kept_step (w w2 : WhatsAppWorker) (hs : Step w w2) (p : Nat)
    (h : (deref w p).QRCode ≠ "") : (deref w2 p).QRCode ≠ "" := by
  cases hs with
  | start r env =>
    rcases handleStart_worker w r env with hw | ⟨req, hw⟩
    · rw [hw]
      exact h
    · rw [hw]
      exact code_kept_alloc w _ _ _ p h
  | connect id env o ho =>
    rcases connectSession_worker w id env o ho with hw | ⟨q, hw⟩ | ⟨q, hw⟩
    · rw [hw]
      exact h
    · rw [hw]
      exact code_kept_update w p q _ (fun _ hs => hs) h
    · rw [hw]
      exact code_kept_update w p q _ (fun _ hs => hs) h
  | select id q c env hc =>
    unfold connectSessionSelect
    split
    · rename_i evt
      split
      · rename_i hev
        rw [notifyWebSockets_worker]
        have hcode := hc evt rfl (by simpa using hev)
        exact code_kept_update w p q _ (fun _ _ => hcode) h
      · split
        · rw [notifyWebSockets_worker]
          exact code_kept_update w p q _ (fun _ hs => hs) h
        · exact h
    · exact code_kept_update w p q (fun s => { s with Status := "disconnected" })
        (fun _ hs => hs) h
  | event id evt writeErr =>
    unfold eventHandler
    cases evt with
    | Message a b c d e =>
      simp only [handleIncomingMessage]
      rw [notifyWebSockets_worker]
      exact h
    | Connected =>
      simp only
      rw [notifyWebSockets_worker]
      exact h
    | Disconnected =>
      simp only
      rw [notifyWebSockets_worker]
      split
      · exact code_kept_update w p _ _ (fun _ hs => hs) h
      · exact h
    | PairSuccess a => exact h
    | Other => exact h
  | disconnect r =>
    rcases handleDisconnect_worker w r with hw | ⟨q, k, hw⟩
    · rw [hw]
      exact h
    · rw [hw]
      exact code_kept_update w p q (fun s => { s with Status := "disconnected" })
        (fun _ hs => hs) h
  | subscribe upgraded id =>
    unfold handleWebSocket
    cases upgraded with
    | none => exact h
    | some conn =>
      dsimp only
      by_cases hid : (id == "") = true
      · rw [if_pos hid]
        exact h
      · rw [if_neg hid]
        cases mapGet w.sessions id with
        | none => exact h
        | some q => exact code_kept_update w p q _ (fun _ hs => hs) h
  | unsubscribe conn registered =>
    unfold handleWebSocketClose
    split
    · exact code_kept_update w p _ _ (fun _ hs => hs) h
    · exact h

/-- C8 (as the code behaves): in every state reachable from the empty
registry (pairing-code items carrying non-empty codes), a registered session
whose status is `qr_required` has a non-empty pairing code, and a registered
session with a non-empty pairing code has status `qr_required`, `connected` or
`disconnected`; and no step clears a pairing code: a session object whose
pairing code is non-empty before a step has a non-empty pairing code after
it. -/
theorem C8_pairing_code_set_at_qr_never_cleared (w : WhatsAppWorker) (h : Reachable w) :
    (∀ id p, mapGet w.sessions id = some p →
      ((deref w p).Status = "qr_required" → (deref w p).QRCode ≠ "") ∧
      ((deref w p).QRCode ≠ "" →
        (deref w p).Status = "qr_required" ∨ (deref w p).Status = "connected" ∨
          (deref w p).Status = "disconnected")) ∧
    (∀ w2 p, Step w w2 → (deref w p).QRCode ≠ "" → (deref w2 p).QRCode ≠ "") := by
  constructor
  · intro id p hget
    have hinv := inv_reachable w h
    have hgood := hinv.1 _ (deref_mem w p (hinv.2 id p hget))
    refine ⟨hgood.2.1, ?_⟩
    intro hne
    rcases hgood.1 with hc | hq | hc | hd
    · exact absurd (hgood.2.2.1 hc) hne
    · exact Or.inl hq
    · exact Or.inr (Or.inl hc)
    · exact Or.inr (Or.inr hd)
  · intro w2 p hs hne
    exact code_kept_step w w2 hs p hne

theorem C8_pairing_code_set_at_qr_never_cleared_witness :
    (((deref codeWorker 0).Status = "qr_required" → (deref codeWorker 0).QRCode ≠ "") ∧
      ((deref codeWorker 0).QRCode ≠ "" →
        (deref codeWorker 0).Status = "qr_required" ∨ (deref codeWorker 0).Status = "connected" ∨
          (deref codeWorker 0).Status = "disconnected")) ∧
    (deref (eventHandler codeWorker "s1" .Disconnected (fun _ => false)).1 0).QRCode ≠ "" :=
  have h := C8_pairing_code_set_at_qr_never_cleared codeWorker reachable_codeWorker
  ⟨h.1 "s1" 0 rfl,
    h.2 _ 0 (Step.event codeWorker "s1" .Disconnected (fun _ => false)) (by decide)⟩

/-- C8 as stated fails: after create, pairing code `"ABC123"` and a
`Disconnected` event of the client, the registered session `"s1"` is
`disconnected` and still carries the code. -/
theorem C8_code_survives_disconnect_event :
    Reachable droppedWorker ∧
    mapGet droppedWorker.sessions "s1" = some 0 ∧
    (deref droppedWorker 0).Status = "disconnected" ∧
    (deref droppedWorker 0).QRCode = "ABC123" ∧
    ¬ ((deref droppedWorker 0).QRCode ≠ "" ↔ (deref droppedWorker 0).Status = "qr_required") := by
  refine ⟨?_, by decide, by decide, by decide, by decide⟩
  exact Reachable.step codeWorker _ reachable_codeWorker
    (Step.event codeWorker "s1" .Disconnected (fun _ => false))

/-! ## Timestamps -/

/-- C9 (what the code does): the four ways a session becomes `disconnected`
write `Status` only.  The session created at time 7 fails to connect, or times
out in its handshake; the session last updated at time 8 gets a `Disconnected`
event, or is disconnected on request: each time the status changes to
`disconnected` and `UpdatedAt` keeps its previous value. -/
theorem C9_disconnected_transitions_keep_updatedAt :
    (connectSession startedWorker "s1"
        { storeIDNil := true, connectErr := some "dial error", user := "", now := 99 }).map
      (fun o => ((deref o.worker 0).Status, (deref o.worker 0).UpdatedAt)) =
      some ("disconnected", 7) ∧
    (deref startedWorker 0).Status = "connecting" ∧
    (deref startedWorker 0).UpdatedAt = 7 ∧
    (deref (connectSessionSelect startedWorker "s1" 0 .timeout
      { user := "", now := 99, writeErr := fun _ => false }).1 0).Status = "disconnected" ∧
    (deref (connectSessionSelect startedWorker "s1" 0 .timeout
      { user := "", now := 99, writeErr := fun _ => false }).1 0).UpdatedAt = 7 ∧
    (deref (eventHandler pairingWorker "s1" .Disconnected (fun _ => false)).1 0).Status =
      "disconnected" ∧
    (deref (eventHandler pairingWorker "s1" .Disconnected (fun _ => false)).1 0).UpdatedAt = 8 ∧
    (deref (handleDisconnect pairingWorker (statusRequest "s1")).worker 0).Status =
      "disconnected" ∧
    (deref (handleDisconnect pairingWorker (statusRequest "s1")).worker 0).UpdatedAt = 8 ∧
    (deref pairingWorker 0).Status = "qr_required" ∧
    (deref pairingWorker 0).UpdatedAt = 8 := by
  decide

/-! ## Lock order -/

theorem heldAfter_append (a b : List LockEvent) :
    ∀ held, heldAfter held (a ++ b) = (heldAfter held a).bind fun h => heldAfter h b := by
  induction a with
  | nil =>
    intro held
    simp [heldAfter]
  | cons e a ih =>
    intro held
    cases e with
    | lock m =>
      cases m with
      | registry =>
        by_cases hh : held = []
        · simp [heldAfter, hh, ih]
        · simp [heldAfter, hh]
      | session p => simp [heldAfter, ih]
    | rlock m =>
      cases m with
      | registry =>
        by_cases hh : held = []
        · simp [heldAfter, hh, ih]
        · simp [heldAfter, hh]
      | session p => simp [heldAfter, ih]
    | unlock m =>
      cases m with
      | registry => simp [heldAfter, ih]
      | session p => simp [heldAfter, ih]
    | runlock m =>
      cases m with
      | registry => simp [heldAfter, ih]
      | session p => simp [heldAfter, ih]

theorem heldAfter_flatMap_read {α : Type} (g : α → Nat) (l : List α) :
    heldAfter [] (l.flatMap fun e => [.rlock (.session (g e)), .runlock (.session (g e))]) =
      some [] := by
  induction l with
  | nil => rfl
  | cons a l ih =>
    rw [List.flatMap_cons, heldAfter_append]
    simp [heldAfter, ih]

theorem heldAfter_flatMap_write {α : Type} (g : α → Nat) (l : List α) :
    heldAfter [] (l.flatMap fun e => [.lock (.session (g e)), .unlock (.session (g e))]) =
      some [] := by
  induction l with
  | nil => rfl
  | cons a l ih =>
    rw [List.flatMap_cons, heldAfter_append]
    simp [heldAfter, ih]

theorem notifyWebSocketsLocks_released (w : WhatsAppWorker) (id : String) :
    heldAfter [] (notifyWebSocketsLocks w id) = some [] := by
  unfold notifyWebSocketsLocks
  cases mapGet w.sessions id <;> simp [heldAfter]

theorem handleStartLocks_released (w : WhatsAppWorker) (r : Request StartRequest) :
    heldAfter [] (handleStartLocks w r) = some [] := by
  unfold handleStartLocks
  split
  · rfl
  · split
    · rfl
    · split
      · rfl
      · cases mapGet w.sessions _ <;> simp [heldAfter]

theorem handleStatusLocks_released (w : WhatsAppWorker) (r : Request StatusRequest) :
    heldAfter [] (handleStatusLocks w r) = some [] := by
  unfold handleStatusLocks
  split
  · rfl
  · split
    · rfl
    · split
      · rfl
      · cases mapGet w.sessions _ <;> simp [heldAfter]

theorem handleQRCodeLocks_released (w : WhatsAppWorker) (r : Request QRCodeRequest)
    (polls : Nat) : heldAfter [] (handleQRCodeLocks w r polls) = some [] := by
  unfold handleQRCodeLocks
  split
  · rfl
  · split
    · rfl
    · split
      · rfl
      · rw [heldAfter_append]
        cases mapGet w.sessions _ with
        | none => simp [heldAfter]
        | some p =>
          simp only [heldAfter, if_true, Option.some_bind]
          exact heldAfter_flatMap_read (fun _ => p) (List.range polls)

theorem handleDisconnectLocks_released (w : WhatsAppWorker) (r : Request StatusRequest) :
    heldAfter [] (handleDisconnectLocks w r) = some [] := by
  unfold handleDisconnectLocks
  split
  · rfl
  · split
    · rfl
    · split
      · rfl
      · cases mapGet w.sessions _ <;> simp [heldAfter]

theorem handleSendTextLocks_released (w : WhatsAppWorker) (r : Request MessageRequest) :
    heldAfter [] (handleSendTextLocks w r) = some [] := by
  unfold handleSendTextLocks
  split
  · rfl
  · split
    · rfl
    · split
      · rfl
      · cases mapGet w.sessions _ <;> simp [heldAfter]

theorem handleHealthLocks_released (w : WhatsAppWorker) :
    heldAfter [] (handleHealthLocks w) = some [] := by
  unfold handleHealthLocks
  rw [heldAfter_append, heldAfter_append]
  simp only [heldAfter, if_true, Option.some_bind]
  rw [heldAfter_flatMap_read (fun e : String × Nat => e.2) w.sessions]
  rfl

theorem cleanupLocks_released (w : WhatsAppWorker) :
    heldAfter [] (cleanupLocks w) = some [] := by
  unfold cleanupLocks
  rw [heldAfter_append, heldAfter_append]
  simp only [heldAfter, if_true, Option.some_bind]
  rw [heldAfter_flatMap_write (fun e : String × Nat => e.2) w.sessions]
  rfl

theorem handleWebSocketLocks_released (w : WhatsAppWorker) (upgraded : Option Nat)
    (id : String) : heldAfter [] (handleWebSocketLocks w upgraded id) = some [] := by
  unfold handleWebSocketLocks
  split
  · rfl
  · split
    · rfl
    · cases mapGet w.sessions _ <;> simp [heldAfter]

theorem eventHandlerLocks_released (w : WhatsAppWorker) (id : String) (evt : ClientEvent) :
    heldAfter [] (eventHandlerLocks w id evt) = some [] := by
  cases evt with
  | Message a b c d e => exact notifyWebSocketsLocks_released w id
  | Connected => exact notifyWebSocketsLocks_released w id
  | Disconnected =>
    unfold eventHandlerLocks notifyWebSocketsLocks
    cases mapGet w.sessions id <;> simp [heldAfter]
  | PairSuccess a => rfl
  | Other => rfl

theorem connectSessionSelectLocks_released (w : WhatsAppWorker) (id : String) (p : Nat)
    (c : SelectCase) : heldAfter [] (connectSessionSelectLocks w id p c) = some [] := by
  unfold connectSessionSelectLocks notifyWebSocketsLocks
  split
  · split
    · cases mapGet w.sessions id <;> simp [heldAfter]
    · split
      · cases mapGet w.sessions id <;> simp [heldAfter]
      · rfl
  · simp [heldAfter]

theorem connectSessionLocks_returned (w : WhatsAppWorker) (id : String) (env : ConnectEnv)
    (o : ConnectOutcome) (ho : connectSession w id env = some o) :
    heldAfter [] (connectSessionLocks w id env) = some [] := by
  unfold connectSession at ho
  unfold connectSessionLocks
  cases hg : mapGet w.sessions id with
  | none => simp [heldAfter]
  | some p =>
    simp only [hg] at ho
    by_cases hst : ((deref w p).Status == "connected") = true
    · simp [heldAfter, hst]
    · rw [if_neg hst] at ho
      cases hc : (deref w p).Client with
      | none => simp [hc] at ho
      | some client =>
        cases hf : env.storeIDNil <;> cases he : env.connectErr <;>
          simp [heldAfter, hst, hf, he, hc]

theorem connectSessionLocks_ordered (w : WhatsAppWorker) (id : String) (env : ConnectEnv) :
    (heldAfter [] (connectSessionLocks w id env)).isSome = true := by
  cases ho : connectSession w id env with
  | some o => rw [connectSessionLocks_returned w id env o ho]; rfl
  | none =>
    unfold connectSessionLocks
    cases hg : mapGet w.sessions id with
    | none => simp [heldAfter]
    | some p =>
      by_cases hst : ((deref w p).Status == "connected") = true
      · simp [heldAfter, hst]
      · cases hc : (deref w p).Client with
        | none => simp [heldAfter, hst, hc]
        | some client =>
          cases hf : env.storeIDNil <;> cases he : env.connectErr <;>
            simp [heldAfter, hst, hf, he, hc]

theorem handshakeLocks_ordered (w later : WhatsAppWorker) (id : String) (env : ConnectEnv)
    (c : SelectCase) : (heldAfter [] (handshakeLocks w later id env c)).isSome = true := by
  unfold handshakeLocks
  rw [heldAfter_append]
  cases ho : connectSession w id env with
  | none =>
    have h := connectSessionLocks_ordered w id env
    cases hh : heldAfter [] (connectSessionLocks w id env) with
    | none => rw [hh] at h; cases h
    | some held => simp [heldAfter]
  | some o =>
    rw [connectSessionLocks_returned w id env o ho]
    simp only [Option.some_bind]
    cases hb : o.blocked with
    | none => rfl
    | some p =>
      simp only []
      rw [connectSessionSelectLocks_released]
      rfl

theorem registryBeforeSession_rejects_reverse (p : Nat) :
    registryBeforeSession [.lock (.session p), .lock .registry] = false ∧
    registryBeforeSession [.rlock (.session p), .rlock .registry] = false ∧
    registryBeforeSession
      [.lock .registry, .lock (.session p), .unlock (.session p), .unlock .registry] = true := by
  simp [registryBeforeSession, heldAfter]

/-- C11: in the lock trace of every operation (create, the handshake goroutine
with each case of its `select`, the timeout among them, status, QR polling,
disconnect, send, health, listener subscription with its deferred removal,
publish, client event handling, shutdown), on every worker state and every
input, the registry lock is never acquired while a session lock is held. -/
theorem C11_registry_lock_never_taken_under_session_lock (w : WhatsAppWorker)
    (op : Operation) : registryBeforeSession (lockTrace w op) = true := by
  unfold registryBeforeSession
  cases op with
  | create r => simp only [lockTrace]; rw [handleStartLocks_released]; rfl
  | handshake later id env c => exact handshakeLocks_ordered w later id env c
  | getStatus r => simp only [lockTrace]; rw [handleStatusLocks_released]; rfl
  | waitForPairingCode r polls => simp only [lockTrace]; rw [handleQRCodeLocks_released]; rfl
  | disconnect r => simp only [lockTrace]; rw [handleDisconnectLocks_released]; rfl
  | send r => simp only [lockTrace]; rw [handleSendTextLocks_released]; rfl
  | health => simp only [lockTrace]; rw [handleHealthLocks_released]; rfl
  | subscribe upgraded id => simp only [lockTrace]; rw [handleWebSocketLocks_released]; rfl
  | publish id => simp only [lockTrace]; rw [notifyWebSocketsLocks_released]; rfl
  | clientEvent id evt => simp only [lockTrace]; rw [eventHandlerLocks_released]; rfl
  | shutdown => simp only [lockTrace]; rw [cleanupLocks_released]; rfl

end Worker
